import Mathlib

/-!
# Component configuration of the IPFS proxy (`api/ipfsproxy/config.go`)

A shallow embedding of `Config` and its four methods `Default`, `Validate`,
`LoadJSON` and `ToJSON`.

* A method with a pointer receiver is a function from the configuration before
  the call to the configuration after it, paired with what the method returns.
* A Go `error` result is an `Option GoError`; `none` is `nil`.
* An interface value that may be `nil` (`ma.Multiaddr`) is an `Option`.
* The functions of other packages that the methods call (`ma.NewMultiaddr`,
  `Multiaddr.String`, `time.ParseDuration`, `Duration.String`,
  `json.Unmarshal`, `config.DefaultJSONMarshal`) are the fields of a record
  `Lib`, over which every definition and theorem is parametric.
-/

namespace Ipfsproxy

/-! ## Values -/

/-- Go's `time.Duration`: a signed count of nanoseconds. The methods do no
arithmetic on durations, they only store them and compare them with zero, so
the 64-bit range plays no role and the count is an integer. -/
abbrev Duration := Int

/-- The constant `time.Second`. -/
def Second : Duration := 1000000000

/-- A Go `[]byte`; the `nil` slice is the empty list. -/
abbrev Bytes := List Nat

/-- The bytes of an ASCII string. -/
def bytesOf (s : String) : Bytes := s.toList.map Char.toNat

/-- Go `error` values that the configuration methods return.
`text` is an error built by `errors.New` or `fmt.Errorf`, or an error of a
library handed on unchanged, identified by its message. `durationParse` is the
error of the batch duration parser, which names the component and the field.
`validation` is a validation error of a configuration type whose message this
development does not fix. -/
inductive GoError where
  | text (msg : String)
  | durationParse (component : String) (name : String) (cause : String)
  | validation (field : String)
  deriving DecidableEq, Repr

/-- The embedded `config.Saver`. No method of `Config` in this file reads or
writes it; it is carried along as an inert token. -/
structure Saver where
  token : Nat
  deriving DecidableEq, Repr

/-- The constant `configKey`. -/
def configKey : String := "ipfsproxy"

/-- The constant `DefaultProxyAddr`. -/
def DefaultProxyAddr : String := "/ip4/127.0.0.1/tcp/9095"

/-- The constant `DefaultNodeAddr`. -/
def DefaultNodeAddr : String := "/ip4/127.0.0.1/tcp/5001"

/-- The constant `DefaultProxyReadTimeout`. -/
def DefaultProxyReadTimeout : Duration := 0

/-- The constant `DefaultProxyReadHeaderTimeout`, `5 * time.Second`. -/
def DefaultProxyReadHeaderTimeout : Duration := 5 * Second

/-- The constant `DefaultProxyWriteTimeout`. -/
def DefaultProxyWriteTimeout : Duration := 0

/-- The constant `DefaultProxyIdleTimeout`, `60 * time.Second`. -/
def DefaultProxyIdleTimeout : Duration := 60 * Second

/-- The struct `type Config struct`. `Addr` is the type of non-nil multiaddresses. -/
structure Config (Addr : Type) where
  Saver : Saver
  ProxyAddr : Option Addr
  NodeAddr : Option Addr
  ProxyReadTimeout : Duration
  ProxyReadHeaderTimeout : Duration
  ProxyWriteTimeout : Duration
  ProxyIdleTimeout : Duration
  deriving DecidableEq, Repr

/-- The struct `type jsonConfig struct`: the record the JSON document decodes into. -/
structure jsonConfig where
  ProxyListenMultiaddress : String
  NodeMultiaddress : String
  ProxyReadTimeout : String
  ProxyReadHeaderTimeout : String
  ProxyWriteTimeout : String
  ProxyIdleTimeout : String
  deriving DecidableEq, Repr

/-- The functions of other packages called by the methods of `Config`.

* `NewMultiaddr s` is the pair `(Multiaddr, error)` of `ma.NewMultiaddr(s)`;
  the error is given by its message.
* `addrString a` is `a.String()` on a non-nil multiaddress; `.error r` stands
  for a panic whose value prints as `r`.
* `ParseDuration s` is `time.ParseDuration(s)`.
* `durationString d` is `d.String()`.
* `Unmarshal raw` is `json.Unmarshal(raw, jcfg)` on a fresh `&jsonConfig{}`:
  the decoded record, or the message of the decoding error.
* `DefaultJSONMarshal j` is the pair `([]byte, error)` of
  `config.DefaultJSONMarshal(j)`. -/
structure Lib (Addr : Type) where
  NewMultiaddr : String → Option Addr × Option String
  addrString : Addr → Except String String
  ParseDuration : String → Except String Duration
  durationString : Duration → String
  Unmarshal : Bytes → Except String jsonConfig
  DefaultJSONMarshal : jsonConfig → Bytes × Option GoError

/-! ## Methods of `Config` -/

section Methods

variable {Addr : Type}

/-- The method `func (cfg *Config) ConfigKey() string`. -/
def ConfigKey (_cfg : Config Addr) : String := configKey

/-- The method `func (cfg *Config) Default() error`. The error of either call of
`ma.NewMultiaddr` is discarded and the address it returned is stored. -/
def Default (lib : Lib Addr) (cfg : Config Addr) : Config Addr × Option GoError :=
  let proxy := (lib.NewMultiaddr DefaultProxyAddr).1
  let node := (lib.NewMultiaddr DefaultNodeAddr).1
  let cfg := { cfg with ProxyAddr := proxy }
  let cfg := { cfg with NodeAddr := node }
  let cfg := { cfg with ProxyReadTimeout := DefaultProxyReadTimeout }
  let cfg := { cfg with ProxyReadHeaderTimeout := DefaultProxyReadHeaderTimeout }
  let cfg := { cfg with ProxyWriteTimeout := DefaultProxyWriteTimeout }
  let cfg := { cfg with ProxyIdleTimeout := DefaultProxyIdleTimeout }
  (cfg, none)

/-- The method `func (cfg *Config) Validate() error`. Every one of the six checks runs;
a failing check assigns its error to `err`. -/
def Validate (cfg : Config Addr) : Option GoError :=
  let err : Option GoError := none
  let err := if cfg.ProxyAddr.isNone then
      some (GoError.text "ipfsproxy.proxy_listen_multiaddress not set") else err
  let err := if cfg.NodeAddr.isNone then
      some (GoError.text "ipfsproxy.node_multiaddress not set") else err
  let err := if cfg.ProxyReadTimeout < 0 then
      some (GoError.text "ipfsproxy.proxy_read_timeout is invalid") else err
  let err := if cfg.ProxyReadHeaderTimeout < 0 then
      some (GoError.text "ipfsproxy.proxy_read_header_timeout is invalid") else err
  let err := if cfg.ProxyWriteTimeout < 0 then
      some (GoError.text "ipfsproxy.proxy_write_timeout is invalid") else err
  let err := if cfg.ProxyIdleTimeout < 0 then
      some (GoError.text "ipfsproxy.proxy_idle_timeout invalid") else err
  err

/-- The destination `Dst *time.Duration` of a `config.DurationOpt`: which of
the four duration fields of `Config` the pointer addresses. -/
inductive DurationDst where
  | ProxyReadTimeout
  | ProxyReadHeaderTimeout
  | ProxyWriteTimeout
  | ProxyIdleTimeout
  deriving DecidableEq, Repr

/-- The assignment `*dst = d`. -/
def DurationDst.store (dst : DurationDst) (d : Duration) (cfg : Config Addr) : Config Addr :=
  match dst with
  | .ProxyReadTimeout => { cfg with ProxyReadTimeout := d }
  | .ProxyReadHeaderTimeout => { cfg with ProxyReadHeaderTimeout := d }
  | .ProxyWriteTimeout => { cfg with ProxyWriteTimeout := d }
  | .ProxyIdleTimeout => { cfg with ProxyIdleTimeout := d }

/-- The read `*dst`. -/
def DurationDst.load (dst : DurationDst) (cfg : Config Addr) : Duration :=
  match dst with
  | .ProxyReadTimeout => cfg.ProxyReadTimeout
  | .ProxyReadHeaderTimeout => cfg.ProxyReadHeaderTimeout
  | .ProxyWriteTimeout => cfg.ProxyWriteTimeout
  | .ProxyIdleTimeout => cfg.ProxyIdleTimeout

/-- The struct `config.DurationOpt`: a duration string, where to store its value, and the
name of the field for error messages. -/
structure DurationOpt where
  Duration : String
  Dst : DurationDst
  Name : String
  deriving DecidableEq, Repr

/-- Modelled from the spec: the parsing pass of `config.ParseDurations`. The
strings are parsed one after the other in the order given; the first string
that fails to parse ends the pass with an error naming its field, and no later
string is looked at. -/
def parseBatch (lib : Lib Addr) (component : String) :
    List DurationOpt → Except GoError (List (DurationDst × Duration))
  | [] => .ok []
  | arg :: rest =>
    match lib.ParseDuration arg.Duration with
    | .error cause => .error (GoError.durationParse component arg.Name cause)
    | .ok d =>
      match parseBatch lib component rest with
      | .error e => .error e
      | .ok parsed => .ok ((arg.Dst, d) :: parsed)

/-- Modelled from the spec: the storing pass of `config.ParseDurations`. Each
parsed value goes to its destination. -/
def storeBatch (parsed : List (DurationDst × Duration)) (cfg : Config Addr) : Config Addr :=
  parsed.foldl (fun c p => p.1.store p.2 c) cfg

/-- Modelled from the spec: `config.ParseDurations`, the batch duration parser
of the repository's `config` package, whose source is not available. Each
field's string is parsed independently and in order; if any field
fails to parse the whole batch reports that failure, naming the field, the
fields after the first failure are never attempted, and the fields parsed
earlier in the batch retain the values they had before the call; a destination
is written only when the batch has succeeded. A string is handed to the parser
as it is, the empty string included. -/
def ParseDurations (lib : Lib Addr) (component : String) (args : List DurationOpt)
    (cfg : Config Addr) : Config Addr × Option GoError :=
  match parseBatch lib component args with
  | .error e => (cfg, some e)
  | .ok parsed => (storeBatch parsed cfg, none)

/-- The four `config.DurationOpt` arguments that `LoadJSON` passes to
`config.ParseDurations`, in the order of the call. -/
def durationOpts (jcfg : jsonConfig) : List DurationOpt :=
  [ { Duration := jcfg.ProxyReadTimeout, Dst := .ProxyReadTimeout, Name := "proxy_read_timeout" },
    { Duration := jcfg.ProxyReadHeaderTimeout, Dst := .ProxyReadHeaderTimeout,
      Name := "proxy_read_header_timeout" },
    { Duration := jcfg.ProxyWriteTimeout, Dst := .ProxyWriteTimeout, Name := "proxy_write_timeout" },
    { Duration := jcfg.ProxyIdleTimeout, Dst := .ProxyIdleTimeout, Name := "proxy_idle_timeout" } ]

/-- The method `func (cfg *Config) LoadJSON(raw []byte) error`. The call of `logger.Error`
on a decoding failure has no effect on the configuration and is left out. -/
def LoadJSON (lib : Lib Addr) (raw : Bytes) (cfg : Config Addr) : Config Addr × Option GoError :=
  match lib.Unmarshal raw with
  | .error e => (cfg, some (GoError.text e))
  | .ok jcfg =>
    let cfg := (Default lib cfg).1
    match lib.NewMultiaddr jcfg.ProxyListenMultiaddress with
    | (_, some e) =>
      (cfg, some (GoError.text ("error parsing ipfs_proxy_listen_multiaddress: " ++ e)))
    | (proxyAddr, none) =>
      match lib.NewMultiaddr jcfg.NodeMultiaddress with
      | (_, some e) =>
        (cfg, some (GoError.text ("error parsing ipfs_node_multiaddress: " ++ e)))
      | (nodeAddr, none) =>
        let cfg := { cfg with ProxyAddr := proxyAddr }
        let cfg := { cfg with NodeAddr := nodeAddr }
        match ParseDurations lib "ipfsproxy" (durationOpts jcfg) cfg with
        | (cfg, some err) => (cfg, some err)
        | (cfg, none) => (cfg, Validate cfg)

/-- The message of the run-time panic of a method call on a `nil` interface
value. -/
def nilDereference : String := "runtime error: invalid memory address or nil pointer dereference"

/-- The call `addr.String()` on a field of `Config`: on `nil` it panics with a
nil dereference, otherwise it is the library's `String`. `.error r` is a panic
whose value prints as `r`. -/
def multiaddrString (lib : Lib Addr) : Option Addr → Except String String
  | none => .error nilDereference
  | some a => lib.addrString a

/-- The record `jcfg` that `ToJSON` fills in and marshals, given the two
address strings. -/
def toRecord (lib : Lib Addr) (proxy node : String) (cfg : Config Addr) : jsonConfig :=
  { ProxyListenMultiaddress := proxy
    NodeMultiaddress := node
    ProxyReadTimeout := lib.durationString cfg.ProxyReadTimeout
    ProxyReadHeaderTimeout := lib.durationString cfg.ProxyReadHeaderTimeout
    ProxyWriteTimeout := lib.durationString cfg.ProxyWriteTimeout
    ProxyIdleTimeout := lib.durationString cfg.ProxyIdleTimeout }

/-- The body of `ToJSON` below the deferred function: `.error r` is a panic. -/
def toJSONBody (lib : Lib Addr) (cfg : Config Addr) : Except String (Bytes × Option GoError) :=
  match multiaddrString lib cfg.ProxyAddr with
  | .error r => .error r
  | .ok proxy =>
    match multiaddrString lib cfg.NodeAddr with
    | .error r => .error r
    | .ok node => .ok (lib.DefaultJSONMarshal (toRecord lib proxy node cfg))

/-- The method `func (cfg *Config) ToJSON() (raw []byte, err error)`. The deferred
function recovers a panic `r` and sets `err = fmt.Errorf("%s", r)`; `raw` is
then still the `nil` slice it was initialised to. No statement of the method
assigns to a field of `cfg`. -/
def ToJSON (lib : Lib Addr) (cfg : Config Addr) : Config Addr × (Bytes × Option GoError) :=
  match toJSONBody lib cfg with
  | .ok result => (cfg, result)
  | .error r => (cfg, ([], some (GoError.text r)))

end Methods

/-! ## The check order of the specification -/

section CheckOrder

variable {Addr : Type}

/-- The six invariants in the fixed check order of the specification, each as
the test that it is violated together with the error reported for it. -/
def checks : List ((Config Addr → Bool) × GoError) :=
  [ (fun cfg => cfg.ProxyAddr.isNone, GoError.text "ipfsproxy.proxy_listen_multiaddress not set"),
    (fun cfg => cfg.NodeAddr.isNone, GoError.text "ipfsproxy.node_multiaddress not set"),
    (fun cfg => decide (cfg.ProxyReadTimeout < 0),
      GoError.text "ipfsproxy.proxy_read_timeout is invalid"),
    (fun cfg => decide (cfg.ProxyReadHeaderTimeout < 0),
      GoError.text "ipfsproxy.proxy_read_header_timeout is invalid"),
    (fun cfg => decide (cfg.ProxyWriteTimeout < 0),
      GoError.text "ipfsproxy.proxy_write_timeout is invalid"),
    (fun cfg => decide (cfg.ProxyIdleTimeout < 0),
      GoError.text "ipfsproxy.proxy_idle_timeout invalid") ]

/-- The error of the first violated invariant in the check order, as the
specification describes the result of `Validate`. -/
def firstViolation (cfg : Config Addr) : Option GoError :=
  (checks.find? (fun c => c.1 cfg)).map Prod.snd

/-- The error of the last violated invariant in the check order. -/
def lastViolation (cfg : Config Addr) : Option GoError :=
  (checks.reverse.find? (fun c => c.1 cfg)).map Prod.snd

/-- The number of violated invariants. -/
def violations (cfg : Config Addr) : Nat :=
  (checks.filter (fun c => c.1 cfg)).length

/-- Whether the characters `needle` occur contiguously in the given list. -/
def occursIn (needle : List Char) : List Char → Bool
  | [] => needle.isEmpty
  | c :: cs => needle.isPrefixOf (c :: cs) || occursIn needle cs

/-- An error names a field when the field's name occurs in its message, or is
the field it records. -/
def namesField (e : GoError) (field : String) : Bool :=
  match e with
  | .text msg => occursIn field.toList msg.toList
  | .durationParse _ name _ => name == field
  | .validation f => f == field

end CheckOrder

end Ipfsproxy

/-! # The informer configuration (`informer/numpin`) -/

namespace Numpin

open Ipfsproxy (Duration GoError Second)

/-- Modelled from the spec: the `Config` of the numpin informer, whose source
is not available (only its test is). It holds the single duration field
`MetricTTL`. -/
structure Config where
  MetricTTL : Duration
  deriving DecidableEq, Repr

/-- Modelled from the spec: `Default` of the numpin `Config`, whose source is
not available. It sets `MetricTTL` to the built-in default,
which the specification only describes as a short positive duration and which
is therefore the argument `defaultMetricTTL`; it returns no error. -/
def Default (defaultMetricTTL : Duration) (_cfg : Config) : Config × Option GoError :=
  ({ MetricTTL := defaultMetricTTL }, none)

/-- Modelled from the spec: `Validate` of the numpin `Config`, whose source is
not available. It requires `MetricTTL` to be a positive
duration; zero is rejected. -/
def Validate (cfg : Config) : Option GoError :=
  if cfg.MetricTTL ≤ 0 then some (GoError.validation "metric_ttl") else none

end Numpin

/-! # A concrete library, for evaluating the methods on concrete inputs -/

namespace Ipfsproxy

/-- A multiaddress given by its canonical text. -/
structure TextAddr where
  canonical : String
  deriving DecidableEq, Repr

/-- The address texts that the sample multiaddress parser accepts. -/
def sampleAddrs : List String :=
  [DefaultProxyAddr, DefaultNodeAddr, "/ip4/10.0.0.7/tcp/4001"]

/-- A finite fragment of `ma.NewMultiaddr`: the listed texts parse, every other
string is rejected with a `nil` address. -/
def sampleNewMultiaddr (s : String) : Option TextAddr × Option String :=
  if sampleAddrs.contains s then (some { canonical := s }, none)
  else (none, some "invalid multiaddr, must begin with /")

/-- A finite fragment of `Multiaddr.String`: an address with a listed text
prints as that text, any other address object makes `String()` panic. -/
def sampleAddrString (a : TextAddr) : Except String String :=
  if sampleAddrs.contains a.canonical then .ok a.canonical
  else .error "multiaddr failed to convert back to string. corrupted?"

/-- The duration literals that the sample duration parser accepts, with their
values. -/
def sampleDurations : List (String × Duration) :=
  [ ("0s", 0), ("5s", 5 * Second), ("1m0s", 60 * Second), ("7s", 7 * Second),
    ("30s", 30 * Second), ("-5s", -(5 * Second)) ]

/-- A finite fragment of `time.ParseDuration`. -/
def sampleParseDuration (s : String) : Except String Duration :=
  match sampleDurations.find? (fun p => p.1 == s) with
  | some p => .ok p.2
  | none => .error ("time: invalid duration \"" ++ s ++ "\"")

/-- A finite fragment of `Duration.String`. -/
def sampleDurationString (d : Duration) : String :=
  match sampleDurations.find? (fun p => p.2 == d) with
  | some p => p.1
  | none => toString d ++ "ns"

/-- The JSON text of a record: the six members in the order of the struct,
without indentation. -/
def sampleText (j : jsonConfig) : String :=
  "\x7b\"proxy_listen_multiaddress\":\"" ++ j.ProxyListenMultiaddress ++
  "\",\"node_multiaddress\":\"" ++ j.NodeMultiaddress ++
  "\",\"proxy_read_timeout\":\"" ++ j.ProxyReadTimeout ++
  "\",\"proxy_read_header_timeout\":\"" ++ j.ProxyReadHeaderTimeout ++
  "\",\"proxy_write_timeout\":\"" ++ j.ProxyWriteTimeout ++
  "\",\"proxy_idle_timeout\":\"" ++ j.ProxyIdleTimeout ++ "\"\x7d"

/-- The record of the default configuration. -/
def recDefault : jsonConfig :=
  { ProxyListenMultiaddress := DefaultProxyAddr
    NodeMultiaddress := DefaultNodeAddr
    ProxyReadTimeout := "0s"
    ProxyReadHeaderTimeout := "5s"
    ProxyWriteTimeout := "0s"
    ProxyIdleTimeout := "1m0s" }

/-- A record with other values in every field. -/
def recOther : jsonConfig :=
  { ProxyListenMultiaddress := "/ip4/10.0.0.7/tcp/4001"
    NodeMultiaddress := DefaultNodeAddr
    ProxyReadTimeout := "7s"
    ProxyReadHeaderTimeout := "30s"
    ProxyWriteTimeout := "5s"
    ProxyIdleTimeout := "0s" }

/-- A record whose idle timeout is a negative duration. -/
def recNegative : jsonConfig := { recDefault with ProxyIdleTimeout := "-5s" }

/-- A record both of whose address strings are malformed. -/
def recBadAddrs : jsonConfig :=
  { recDefault with ProxyListenMultiaddress := "localhost:9095", NodeMultiaddress := "localhost:5001" }

/-- A record whose node address alone is malformed. -/
def recBadNode : jsonConfig := { recDefault with NodeMultiaddress := "localhost:5001" }

/-- A record whose proxy address alone is malformed. -/
def recBadProxy : jsonConfig := { recDefault with ProxyListenMultiaddress := "localhost:9095" }

/-- A record whose third duration string is malformed, after two that parse. -/
def recBadDuration : jsonConfig := { recOther with ProxyWriteTimeout := "soon" }

/-- The records whose JSON text the sample decoder knows. -/
def sampleRecords : List jsonConfig :=
  [recDefault, recOther, recNegative, recBadAddrs, recBadNode, recBadProxy, recBadDuration]

/-- A finite fragment of `json.Unmarshal` into a `jsonConfig`: the text of a
listed record decodes to that record, any other input is a decoding error (for
the empty input, the error of a document that ends too early). -/
def sampleUnmarshal (raw : Bytes) : Except String jsonConfig :=
  match sampleRecords.find? (fun j => bytesOf (sampleText j) == raw) with
  | some j => .ok j
  | none => .error (if raw = [] then "unexpected end of JSON input" else "invalid JSON input")

/-- A stand-in for `config.DefaultJSONMarshal` on a `jsonConfig`. -/
def sampleDefaultJSONMarshal (j : jsonConfig) : Bytes × Option GoError :=
  (bytesOf (sampleText j), none)

/-- The sample library. -/
def sampleLib : Lib TextAddr :=
  { NewMultiaddr := sampleNewMultiaddr
    addrString := sampleAddrString
    ParseDuration := sampleParseDuration
    durationString := sampleDurationString
    Unmarshal := sampleUnmarshal
    DefaultJSONMarshal := sampleDefaultJSONMarshal }

/-- The configuration with every field at its zero value, as `&Config{}`. -/
def emptyConfig : Config TextAddr :=
  { Saver := { token := 0 }
    ProxyAddr := none
    NodeAddr := none
    ProxyReadTimeout := 0
    ProxyReadHeaderTimeout := 0
    ProxyWriteTimeout := 0
    ProxyIdleTimeout := 0 }

/-- The default configuration under the sample library. -/
def defaultConfig : Config TextAddr :=
  { Saver := { token := 0 }
    ProxyAddr := some { canonical := DefaultProxyAddr }
    NodeAddr := some { canonical := DefaultNodeAddr }
    ProxyReadTimeout := 0
    ProxyReadHeaderTimeout := 5 * Second
    ProxyWriteTimeout := 0
    ProxyIdleTimeout := 60 * Second }

/-- A configuration with values that differ from the defaults in every field. -/
def otherConfig : Config TextAddr :=
  { Saver := { token := 3 }
    ProxyAddr := some { canonical := "/ip4/10.0.0.7/tcp/4001" }
    NodeAddr := some { canonical := DefaultNodeAddr }
    ProxyReadTimeout := 7 * Second
    ProxyReadHeaderTimeout := 30 * Second
    ProxyWriteTimeout := 5 * Second
    ProxyIdleTimeout := 0 }

/-- A configuration that violates the first and the last invariant of the
check order: `ProxyAddr` is `nil` and `ProxyIdleTimeout` is negative. -/
def nilProxyNegativeIdle : Config TextAddr :=
  { defaultConfig with ProxyAddr := none, ProxyIdleTimeout := -1 }

/-- The bytes of the JSON text of a record. -/
def docOf (j : jsonConfig) : Bytes := bytesOf (sampleText j)

/-- A configuration whose node address is an object that `String()` panics
on. -/
def corruptNodeConfig : Config TextAddr :=
  { defaultConfig with NodeAddr := some { canonical := "" } }

/-- An error carries a cause when the cause's text occurs in its message, or is
the cause it records. -/
def carriesCause (e : GoError) (cause : String) : Bool :=
  match e with
  | .text msg => occursIn cause.toList msg.toList
  | .durationParse _ _ c => c == cause
  | .validation _ => false

end Ipfsproxy

/-! # Loading and saving the informer configuration -/

namespace Numpin

open Ipfsproxy (Duration GoError Second Bytes bytesOf)

/-- Modelled from the spec: the `jsonConfig` of the numpin informer, whose
declaration is not available; the test sets its field `MetricTTL` and the
document names it `metric_ttl`. -/
structure jsonConfig where
  MetricTTL : String
  deriving DecidableEq, Repr

/-- The functions of other packages that the numpin configuration calls:
`time.ParseDuration`, `Duration.String`, `json.Unmarshal` on a fresh
`&jsonConfig{}` (the decoded record, or the message of the decoding error) and
`encode`, the encoder of the schema record into the output bytes. The
specification gives the encoder no failure of its own: the only encode error it
knows is a field that fails to convert to its string form, and a record of
strings always has an encoding. -/
structure Lib where
  ParseDuration : String → Except String Duration
  durationString : Duration → String
  Unmarshal : Bytes → Except String jsonConfig
  encode : jsonConfig → Bytes

/-- Modelled from the spec: `LoadJSON` of the numpin `Config`, whose source is
not available. It follows the lifecycle the specification gives for every
configuration type: the input is decoded into the schema record, and a
decoding failure is returned before the object is touched; then `Default`
seeds the object; then the duration string is parsed, as it is, and a string
that fails to parse is reported as a duration-parse error naming the field,
the field keeping its default; then the parsed value is stored and the result
of `Validate` is returned. -/
def LoadJSON (lib : Lib) (defaultMetricTTL : Duration) (raw : Bytes) (cfg : Config) :
    Config × Option GoError :=
  match lib.Unmarshal raw with
  | .error e => (cfg, some (GoError.text e))
  | .ok jcfg =>
    let cfg := (Default defaultMetricTTL cfg).1
    match lib.ParseDuration jcfg.MetricTTL with
    | .error cause => (cfg, some (GoError.durationParse "numpin" "metric_ttl" cause))
    | .ok d =>
      let cfg := { cfg with MetricTTL := d }
      (cfg, Validate cfg)

/-- Modelled from the spec: `ToJSON` of the numpin `Config`, whose source is
not available. It reads the field, converts it to its duration string, and
encodes the record. The only encode error of the specification is a field
whose conversion to its string form fails, which it ties to the address
conversion; this configuration has no address and a duration always converts,
so the bytes are returned with no error. The object is not changed. -/
def ToJSON (lib : Lib) (cfg : Config) : Config × (Bytes × Option GoError) :=
  (cfg, (lib.encode { MetricTTL := lib.durationString cfg.MetricTTL }, none))

/-- The duration literals that the sample parser of the informer accepts, with
their values. -/
def sampleDurations : List (String × Duration) :=
  [ ("1s", Second), ("10s", 10 * Second), ("0s", 0), ("-5s", -(5 * Second)) ]

/-- A finite fragment of `time.ParseDuration`: the listed literals parse, a
number without a unit such as `-10` is rejected for its missing unit, any
other string is rejected as invalid. -/
def sampleParseDuration (s : String) : Except String Duration :=
  match sampleDurations.find? (fun p => p.1 == s) with
  | some p => .ok p.2
  | none =>
    if s = "-10" then .error "time: missing unit in duration \"-10\""
    else .error ("time: invalid duration \"" ++ s ++ "\"")

/-- A finite fragment of `Duration.String`. -/
def sampleDurationString (d : Duration) : String :=
  match sampleDurations.find? (fun p => p.2 == d) with
  | some p => p.1
  | none => toString d ++ "ns"

/-- The JSON text of a record, without indentation, as `json.Marshal` writes
it. -/
def sampleText (j : jsonConfig) : String :=
  "\x7b\"metric_ttl\":\"" ++ j.MetricTTL ++ "\"\x7d"

/-- The document `cfgJSON` of the test file. -/
def cfgJSON : Bytes := bytesOf "\n\x7b\n      \"metric_ttl\": \"1s\"\n\x7d\n"

/-- The document the test builds from `cfgJSON` by setting `metric_ttl` to
`-10`. -/
def docMissingUnit : Bytes := bytesOf (sampleText { MetricTTL := "-10" })

/-- A document whose `metric_ttl` is zero. -/
def docZero : Bytes := bytesOf (sampleText { MetricTTL := "0s" })

/-- A document whose `metric_ttl` is negative. -/
def docNegative : Bytes := bytesOf (sampleText { MetricTTL := "-5s" })

/-- A finite fragment of `json.Unmarshal` into the informer's `jsonConfig`:
the four documents above decode, any other input is a decoding error. -/
def sampleUnmarshal (raw : Bytes) : Except String jsonConfig :=
  if raw = cfgJSON then .ok { MetricTTL := "1s" }
  else if raw = docMissingUnit then .ok { MetricTTL := "-10" }
  else if raw = docZero then .ok { MetricTTL := "0s" }
  else if raw = docNegative then .ok { MetricTTL := "-5s" }
  else .error (if raw = [] then "unexpected end of JSON input" else "invalid JSON input")

/-- A stand-in for the encoder of the record. -/
def sampleEncode (j : jsonConfig) : Bytes :=
  bytesOf (sampleText j)

/-- The sample library of the informer. -/
def sampleLib : Lib :=
  { ParseDuration := sampleParseDuration
    durationString := sampleDurationString
    Unmarshal := sampleUnmarshal
    encode := sampleEncode }

/-- The configuration with its field at the zero value, as `&Config{}`. -/
def emptyConfig : Config := { MetricTTL := 0 }

end Numpin

/-! # A second sample document for the proxy configuration -/

namespace Ipfsproxy

/-- A record whose proxy address parses to an address other than the default
and whose node address is malformed. -/
def recOtherBadNode : jsonConfig := { recOther with NodeMultiaddress := "localhost:5001" }

/-- The sample library, whose decoder also knows the text of
`recOtherBadNode`. -/
def sampleLibExt : Lib TextAddr :=
  { sampleLib with
    Unmarshal := fun raw =>
      if raw == docOf recOtherBadNode then .ok recOtherBadNode else sampleLib.Unmarshal raw }

/-- A duration parser that rejects every string. -/
def rejectAllDurations (s : String) : Except String Duration :=
  .error ("time: invalid duration \"" ++ s ++ "\"")

end Ipfsproxy

/-! # Properties of `Validate` -/

namespace Ipfsproxy

section ValidateLemmas

variable {Addr : Type}

theorem validate_none_iff (cfg : Config Addr) :
    Validate cfg = none ↔
      cfg.ProxyAddr ≠ none ∧ cfg.NodeAddr ≠ none ∧ 0 ≤ cfg.ProxyReadTimeout ∧
        0 ≤ cfg.ProxyReadHeaderTimeout ∧ 0 ≤ cfg.ProxyWriteTimeout ∧
        0 ≤ cfg.ProxyIdleTimeout := by
  unfold Validate
  by_cases h6 : cfg.ProxyIdleTimeout < 0
  · simp [h6]
  by_cases h5 : cfg.ProxyWriteTimeout < 0
  · simp [h5, h6]
  by_cases h4 : cfg.ProxyReadHeaderTimeout < 0
  · simp [h4, h5, h6]
  by_cases h3 : cfg.ProxyReadTimeout < 0
  · simp [h3, h4, h5, h6]
  cases h2 : cfg.NodeAddr <;> cases h1 : cfg.ProxyAddr <;>
    simp [h3, h4, h5, h6, not_lt.mp h3, not_lt.mp h4, not_lt.mp h5, not_lt.mp h6]

theorem validate_eq_lastViolation (cfg : Config Addr) : Validate cfg = lastViolation cfg := by
  unfold Validate lastViolation checks
  by_cases h6 : cfg.ProxyIdleTimeout < 0
  · simp [h6, List.find?]
  by_cases h5 : cfg.ProxyWriteTimeout < 0
  · simp [h5, h6, List.find?]
  by_cases h4 : cfg.ProxyReadHeaderTimeout < 0
  · simp [h4, h5, h6, List.find?]
  by_cases h3 : cfg.ProxyReadTimeout < 0
  · simp [h3, h4, h5, h6, List.find?]
  cases h2 : cfg.NodeAddr <;> cases h1 : cfg.ProxyAddr <;>
    simp [h1, h2, h3, h4, h5, h6, List.find?]

theorem validate_eq_firstViolation_of_one (cfg : Config Addr) (h : violations cfg = 1) :
    Validate cfg = firstViolation cfg := by
  rw [validate_eq_lastViolation]
  unfold violations at h
  unfold lastViolation firstViolation
  unfold checks at *
  by_cases h6 : cfg.ProxyIdleTimeout < 0 <;>
  by_cases h5 : cfg.ProxyWriteTimeout < 0 <;>
  by_cases h4 : cfg.ProxyReadHeaderTimeout < 0 <;>
  by_cases h3 : cfg.ProxyReadTimeout < 0 <;>
  cases h2 : cfg.NodeAddr <;> cases h1 : cfg.ProxyAddr <;>
    simp [h1, h2, h3, h4, h5, h6, List.find?, List.filter] at h ⊢

theorem validate_ne_none_of_violation (cfg : Config Addr) (h : 0 < violations cfg) :
    Validate cfg ≠ none := by
  intro hv
  obtain ⟨h1, h2, h3, h4, h5, h6⟩ := (validate_none_iff cfg).mp hv
  unfold violations checks at h
  cases h1' : cfg.ProxyAddr
  · exact h1 h1'
  cases h2' : cfg.NodeAddr
  · exact h2 h2'
  simp [h1', h2', List.filter, not_lt.mpr h3, not_lt.mpr h4, not_lt.mpr h5, not_lt.mpr h6] at h

end ValidateLemmas

section ValidateClaims

variable {Addr : Type}

/-- C1. `Validate` returns no error exactly when `ProxyAddr` and `NodeAddr` are
both set and each of the four timeouts is at least zero. So a `nil` address or
one negative timeout makes it fail, and a timeout of exactly zero is accepted
in every one of the four fields. -/
theorem Validate_ok_iff (cfg : Config Addr) :
    Validate cfg = none ↔
      cfg.ProxyAddr ≠ none ∧ cfg.NodeAddr ≠ none ∧ 0 ≤ cfg.ProxyReadTimeout ∧
        0 ≤ cfg.ProxyReadHeaderTimeout ∧ 0 ≤ cfg.ProxyWriteTimeout ∧
        0 ≤ cfg.ProxyIdleTimeout :=
  validate_none_iff cfg

/-- C2, as stated, fails: with `ProxyAddr` nil and `ProxyIdleTimeout` negative
(and nothing else violated) `Validate` returns the error for
`proxy_idle_timeout`, whereas the first violated invariant of the check order
is the one for `proxy_listen_multiaddress`. -/
theorem Validate_not_first_violation :
    0 < violations nilProxyNegativeIdle ∧
      Validate nilProxyNegativeIdle = some (GoError.text "ipfsproxy.proxy_idle_timeout invalid") ∧
      firstViolation nilProxyNegativeIdle =
        some (GoError.text "ipfsproxy.proxy_listen_multiaddress not set") ∧
      Validate nilProxyNegativeIdle ≠ firstViolation nilProxyNegativeIdle := by
  decide

/-- C2, amended. For a configuration that violates at least one invariant,
`Validate` returns an error, and it is the error of the last violated invariant
of the check order: every check runs and a later failure replaces an earlier
one. When exactly one invariant is violated, that is also the first. -/
theorem Validate_returns_last_violation (cfg : Config Addr) (h : 0 < violations cfg) :
    Validate cfg ≠ none ∧ Validate cfg = lastViolation cfg ∧
      (violations cfg = 1 → Validate cfg = firstViolation cfg) :=
  ⟨validate_ne_none_of_violation cfg h, validate_eq_lastViolation cfg,
    validate_eq_firstViolation_of_one cfg⟩

/-- C2, amended, at the configuration with `ProxyAddr` nil and
`ProxyIdleTimeout` negative: the error is the one for `proxy_idle_timeout`. -/
theorem Validate_returns_last_violation_witness :
    0 < violations nilProxyNegativeIdle ∧
      Validate nilProxyNegativeIdle ≠ none ∧
      Validate nilProxyNegativeIdle = lastViolation nilProxyNegativeIdle ∧
      lastViolation nilProxyNegativeIdle =
        some (GoError.text "ipfsproxy.proxy_idle_timeout invalid") :=
  ⟨by decide, (Validate_returns_last_violation nilProxyNegativeIdle (by decide)).1,
    (Validate_returns_last_violation nilProxyNegativeIdle (by decide)).2.1, by decide⟩

end ValidateClaims

/-! # Properties of `Default`, `LoadJSON` and `ToJSON` -/

section LoadLemmas

variable {Addr : Type}

theorem default_eq (lib : Lib Addr) (cfg : Config Addr) :
    Default lib cfg =
      ({ Saver := cfg.Saver
         ProxyAddr := (lib.NewMultiaddr DefaultProxyAddr).1
         NodeAddr := (lib.NewMultiaddr DefaultNodeAddr).1
         ProxyReadTimeout := 0
         ProxyReadHeaderTimeout := 5 * Second
         ProxyWriteTimeout := 0
         ProxyIdleTimeout := 60 * Second }, none) := rfl

theorem loadJSON_decode_error (lib : Lib Addr) (raw : Bytes) (cfg : Config Addr) (e : String)
    (hu : lib.Unmarshal raw = .error e) :
    LoadJSON lib raw cfg = (cfg, some (GoError.text e)) := by
  simp [LoadJSON, hu]

theorem loadJSON_proxy_error (lib : Lib Addr) (raw : Bytes) (cfg : Config Addr) (j : jsonConfig)
    (cause : String) (hu : lib.Unmarshal raw = .ok j)
    (hp : (lib.NewMultiaddr j.ProxyListenMultiaddress).2 = some cause) :
    LoadJSON lib raw cfg =
      ((Default lib cfg).1,
        some (GoError.text ("error parsing ipfs_proxy_listen_multiaddress: " ++ cause))) := by
  rcases hpp : lib.NewMultiaddr j.ProxyListenMultiaddress with ⟨a, e⟩
  rw [hpp] at hp
  simp only at hp
  subst hp
  simp [LoadJSON, hu, hpp]

theorem loadJSON_node_error (lib : Lib Addr) (raw : Bytes) (cfg : Config Addr) (j : jsonConfig)
    (cause : String) (hu : lib.Unmarshal raw = .ok j)
    (hp : (lib.NewMultiaddr j.ProxyListenMultiaddress).2 = none)
    (hn : (lib.NewMultiaddr j.NodeMultiaddress).2 = some cause) :
    LoadJSON lib raw cfg =
      ((Default lib cfg).1,
        some (GoError.text ("error parsing ipfs_node_multiaddress: " ++ cause))) := by
  rcases hpp : lib.NewMultiaddr j.ProxyListenMultiaddress with ⟨a, e⟩
  rcases hnn : lib.NewMultiaddr j.NodeMultiaddress with ⟨b, f⟩
  rw [hpp] at hp
  rw [hnn] at hn
  simp only at hp hn
  subst hp hn
  simp [LoadJSON, hu, hpp, hnn]

theorem loadJSON_durations (lib : Lib Addr) (raw : Bytes) (cfg : Config Addr) (j : jsonConfig)
    (pa na : Option Addr) (hu : lib.Unmarshal raw = .ok j)
    (hp : lib.NewMultiaddr j.ProxyListenMultiaddress = (pa, none))
    (hn : lib.NewMultiaddr j.NodeMultiaddress = (na, none)) :
    LoadJSON lib raw cfg =
      match ParseDurations lib "ipfsproxy" (durationOpts j)
          { (Default lib cfg).1 with ProxyAddr := pa, NodeAddr := na } with
      | (c, some err) => (c, some err)
      | (c, none) => (c, Validate c) := by
  simp [LoadJSON, hu, hp, hn]

theorem loadJSON_parsed (lib : Lib Addr) (raw : Bytes) (cfg : Config Addr) (j : jsonConfig)
    (pa na : Option Addr) (d1 d2 d3 d4 : Duration) (hu : lib.Unmarshal raw = .ok j)
    (hp : lib.NewMultiaddr j.ProxyListenMultiaddress = (pa, none))
    (hn : lib.NewMultiaddr j.NodeMultiaddress = (na, none))
    (h1 : lib.ParseDuration j.ProxyReadTimeout = .ok d1)
    (h2 : lib.ParseDuration j.ProxyReadHeaderTimeout = .ok d2)
    (h3 : lib.ParseDuration j.ProxyWriteTimeout = .ok d3)
    (h4 : lib.ParseDuration j.ProxyIdleTimeout = .ok d4) :
    LoadJSON lib raw cfg =
      ({ Saver := cfg.Saver, ProxyAddr := pa, NodeAddr := na, ProxyReadTimeout := d1,
         ProxyReadHeaderTimeout := d2, ProxyWriteTimeout := d3, ProxyIdleTimeout := d4 },
        Validate
          { Saver := cfg.Saver, ProxyAddr := pa, NodeAddr := na, ProxyReadTimeout := d1,
            ProxyReadHeaderTimeout := d2, ProxyWriteTimeout := d3, ProxyIdleTimeout := d4 }) := by
  rw [loadJSON_durations lib raw cfg j pa na hu hp hn]
  simp [ParseDurations, durationOpts, parseBatch, h1, h2, h3, h4, storeBatch,
    DurationDst.store, default_eq]

theorem parseBatch_first_failure (lib : Lib Addr) (component : String)
    (pre : List DurationOpt) (opt : DurationOpt) (post : List DurationOpt) (cause : String)
    (hpre : ∀ o ∈ pre, ∃ d, lib.ParseDuration o.Duration = .ok d)
    (hopt : lib.ParseDuration opt.Duration = .error cause) :
    parseBatch lib component (pre ++ opt :: post) =
      .error (GoError.durationParse component opt.Name cause) := by
  induction pre with
  | nil => simp [parseBatch, hopt]
  | cons o rest ih =>
    obtain ⟨d, hd⟩ := hpre o (List.mem_cons_self _ _)
    have ih' := ih (fun o' ho' => hpre o' (List.mem_cons_of_mem _ ho'))
    simp [parseBatch, hd, ih']

theorem loadJSON_success_valid (lib : Lib Addr) (raw : Bytes) (cfg : Config Addr)
    (h : (LoadJSON lib raw cfg).2 = none) : Validate (LoadJSON lib raw cfg).1 = none := by
  unfold LoadJSON at h ⊢
  cases hu : lib.Unmarshal raw with
  | error e => simp [hu] at h
  | ok j =>
    rcases hpp : lib.NewMultiaddr j.ProxyListenMultiaddress with ⟨pa, _ | e⟩
    · rcases hnn : lib.NewMultiaddr j.NodeMultiaddress with ⟨na, _ | f⟩
      · simp only [hu, hpp, hnn] at h ⊢
        rcases hd : ParseDurations lib "ipfsproxy" (durationOpts j)
            { (Default lib cfg).1 with ProxyAddr := pa, NodeAddr := na } with ⟨c, _ | err⟩
        · simp only [hd] at h ⊢
          exact h
        · simp [hd] at h
      · simp [hu, hpp, hnn] at h
    · simp [hu, hpp] at h

end LoadLemmas

section TextLemmas

theorem isPrefixOf_append_self (n post : List Char) : n.isPrefixOf (n ++ post) = true := by
  induction n with
  | nil => simp [List.isPrefixOf]
  | cons c cs ih => simp [List.isPrefixOf, ih]

theorem occursIn_self_append (n post : List Char) : occursIn n (n ++ post) = true := by
  cases h : n ++ post with
  | nil =>
    have hn : n = [] := (List.append_eq_nil.mp h).1
    simp [occursIn, hn]
  | cons c cs =>
    have := isPrefixOf_append_self n post
    rw [h] at this
    simp [occursIn, this]

theorem occursIn_append (pre n post : List Char) : occursIn n (pre ++ (n ++ post)) = true := by
  induction pre with
  | nil => simpa using occursIn_self_append n post
  | cons c cs ih => simp [occursIn, ih]

theorem proxy_error_names_field (cause : String) :
    namesField (GoError.text ("error parsing ipfs_proxy_listen_multiaddress: " ++ cause))
        "proxy_listen_multiaddress" = true ∧
      carriesCause (GoError.text ("error parsing ipfs_proxy_listen_multiaddress: " ++ cause))
        cause = true := by
  constructor
  · have h : ("error parsing ipfs_proxy_listen_multiaddress: " ++ cause).toList =
        "error parsing ipfs_".toList ++
          ("proxy_listen_multiaddress".toList ++ (": ".toList ++ cause.toList)) := by
      simp [String.toList]
    simp only [namesField, h]
    exact occursIn_append _ _ _
  · have h : ("error parsing ipfs_proxy_listen_multiaddress: " ++ cause).toList =
        "error parsing ipfs_proxy_listen_multiaddress: ".toList ++ (cause.toList ++ []) := by
      simp [String.toList]
    simp only [carriesCause, h]
    exact occursIn_append _ _ _

theorem node_error_names_field (cause : String) :
    namesField (GoError.text ("error parsing ipfs_node_multiaddress: " ++ cause))
        "node_multiaddress" = true ∧
      carriesCause (GoError.text ("error parsing ipfs_node_multiaddress: " ++ cause))
        cause = true := by
  constructor
  · have h : ("error parsing ipfs_node_multiaddress: " ++ cause).toList =
        "error parsing ipfs_".toList ++
          ("node_multiaddress".toList ++ (": ".toList ++ cause.toList)) := by
      simp [String.toList]
    simp only [namesField, h]
    exact occursIn_append _ _ _
  · have h : ("error parsing ipfs_node_multiaddress: " ++ cause).toList =
        "error parsing ipfs_node_multiaddress: ".toList ++ (cause.toList ++ []) := by
      simp [String.toList]
    simp only [carriesCause, h]
    exact occursIn_append _ _ _

end TextLemmas

section ToJSONLemmas

variable {Addr : Type}

theorem toJSON_frame (lib : Lib Addr) (cfg : Config Addr) : (ToJSON lib cfg).1 = cfg := by
  unfold ToJSON
  cases toJSONBody lib cfg <;> rfl

theorem toJSON_proxy_fault (lib : Lib Addr) (cfg : Config Addr) (r : String)
    (h : multiaddrString lib cfg.ProxyAddr = .error r) :
    (ToJSON lib cfg).2 = ([], some (GoError.text r)) := by
  simp [ToJSON, toJSONBody, h]

theorem toJSON_node_fault (lib : Lib Addr) (cfg : Config Addr) (s r : String)
    (hp : multiaddrString lib cfg.ProxyAddr = .ok s)
    (h : multiaddrString lib cfg.NodeAddr = .error r) :
    (ToJSON lib cfg).2 = ([], some (GoError.text r)) := by
  simp [ToJSON, toJSONBody, hp, h]

theorem toJSON_ok (lib : Lib Addr) (cfg : Config Addr) (ps ns : String)
    (hp : multiaddrString lib cfg.ProxyAddr = .ok ps)
    (hn : multiaddrString lib cfg.NodeAddr = .ok ns) :
    (ToJSON lib cfg).2 = lib.DefaultJSONMarshal (toRecord lib ps ns cfg) := by
  simp [ToJSON, toJSONBody, hp, hn]

theorem toJSON_nil_fault (lib : Lib Addr) (cfg : Config Addr)
    (h : cfg.ProxyAddr = none ∨ cfg.NodeAddr = none) :
    (ToJSON lib cfg).2.1 = [] ∧ (ToJSON lib cfg).2.2 ≠ none := by
  cases hp : multiaddrString lib cfg.ProxyAddr with
  | error r => simp [toJSON_proxy_fault lib cfg r hp]
  | ok s =>
    rcases h with h | h
    · simp [multiaddrString, h] at hp
    · have hn : multiaddrString lib cfg.NodeAddr = .error nilDereference := by
        simp [multiaddrString, h]
      simp [toJSON_node_fault lib cfg s _ hp hn]

end ToJSONLemmas

end Ipfsproxy

/-! # The claims about `Default`, `LoadJSON` and `ToJSON` -/

namespace Ipfsproxy

section Claims

variable {Addr : Type}

/-- C3, as stated, fails: a configuration whose node address is a non-nil
object that `String()` panics on passes `Validate`, which only tests the
addresses against `nil`, and yet `ToJSON` on it returns an error and no bytes,
so there is nothing to load back. -/
theorem Validate_passes_ToJSON_faults :
    Validate corruptNodeConfig = none ∧
      (ToJSON sampleLib corruptNodeConfig).2 =
        ([], some (GoError.text "multiaddr failed to convert back to string. corrupted?")) ∧
      (ToJSON sampleLib corruptNodeConfig).2.2 ≠ none :=
  ⟨by decide, rfl, by decide⟩

/-- C3, amended. Round trip. Let `c` pass `Validate`, and let the conversions
of the library be inverse to each other on the values of `c`: `String()` of
each address returns, without a panic, a text that `NewMultiaddr` parses back
to that address, `String()` of each timeout is parsed back to it by
`ParseDuration`, and marshalling the record succeeds with bytes that
`Unmarshal` decodes to the record again. Then
`ToJSON` on `c` succeeds, and `LoadJSON` of its bytes, on a configuration in
any prior state, returns no error and leaves the two addresses and the four
timeouts equal to those of `c`, in a configuration that passes `Validate`. -/
theorem LoadJSON_ToJSON_roundtrip (lib : Lib Addr) (c prior : Config Addr)
    (hv : Validate c = none)
    (hP : ∀ a, c.ProxyAddr = some a →
      ∃ s, lib.addrString a = .ok s ∧ lib.NewMultiaddr s = (some a, none))
    (hN : ∀ a, c.NodeAddr = some a →
      ∃ s, lib.addrString a = .ok s ∧ lib.NewMultiaddr s = (some a, none))
    (h1 : lib.ParseDuration (lib.durationString c.ProxyReadTimeout) = .ok c.ProxyReadTimeout)
    (h2 : lib.ParseDuration (lib.durationString c.ProxyReadHeaderTimeout) =
      .ok c.ProxyReadHeaderTimeout)
    (h3 : lib.ParseDuration (lib.durationString c.ProxyWriteTimeout) = .ok c.ProxyWriteTimeout)
    (h4 : lib.ParseDuration (lib.durationString c.ProxyIdleTimeout) = .ok c.ProxyIdleTimeout)
    (hJ : ∀ ps ns, multiaddrString lib c.ProxyAddr = .ok ps →
      multiaddrString lib c.NodeAddr = .ok ns →
      ∃ raw, lib.DefaultJSONMarshal (toRecord lib ps ns c) = (raw, none) ∧
        lib.Unmarshal raw = .ok (toRecord lib ps ns c)) :
    (ToJSON lib c).2.2 = none ∧
      (LoadJSON lib (ToJSON lib c).2.1 prior).2 = none ∧
      (LoadJSON lib (ToJSON lib c).2.1 prior).1.ProxyAddr = c.ProxyAddr ∧
      (LoadJSON lib (ToJSON lib c).2.1 prior).1.NodeAddr = c.NodeAddr ∧
      (LoadJSON lib (ToJSON lib c).2.1 prior).1.ProxyReadTimeout = c.ProxyReadTimeout ∧
      (LoadJSON lib (ToJSON lib c).2.1 prior).1.ProxyReadHeaderTimeout =
        c.ProxyReadHeaderTimeout ∧
      (LoadJSON lib (ToJSON lib c).2.1 prior).1.ProxyWriteTimeout = c.ProxyWriteTimeout ∧
      (LoadJSON lib (ToJSON lib c).2.1 prior).1.ProxyIdleTimeout = c.ProxyIdleTimeout ∧
      Validate (LoadJSON lib (ToJSON lib c).2.1 prior).1 = none := by
  obtain ⟨hpa, hna, g1, g2, g3, g4⟩ := (validate_none_iff c).mp hv
  obtain ⟨pa, hpa⟩ := Option.ne_none_iff_exists'.mp hpa
  obtain ⟨na, hna⟩ := Option.ne_none_iff_exists'.mp hna
  obtain ⟨ps, hps, hpp⟩ := hP pa hpa
  obtain ⟨ns, hns, hnp⟩ := hN na hna
  have hsp : multiaddrString lib c.ProxyAddr = .ok ps := by simp [multiaddrString, hpa, hps]
  have hsn : multiaddrString lib c.NodeAddr = .ok ns := by simp [multiaddrString, hna, hns]
  obtain ⟨raw, hm, hu⟩ := hJ ps ns hsp hsn
  have ht : (ToJSON lib c).2 = (raw, none) := by rw [toJSON_ok lib c ps ns hsp hsn, hm]
  have hl := loadJSON_parsed lib raw prior (toRecord lib ps ns c) (some pa) (some na)
    c.ProxyReadTimeout c.ProxyReadHeaderTimeout c.ProxyWriteTimeout c.ProxyIdleTimeout
    hu hpp hnp h1 h2 h3 h4
  have hv' : Validate
      ({ Saver := prior.Saver, ProxyAddr := some pa, NodeAddr := some na,
         ProxyReadTimeout := c.ProxyReadTimeout,
         ProxyReadHeaderTimeout := c.ProxyReadHeaderTimeout,
         ProxyWriteTimeout := c.ProxyWriteTimeout,
         ProxyIdleTimeout := c.ProxyIdleTimeout } : Config Addr) = none := by
    rw [validate_none_iff]
    exact ⟨by simp, by simp, g1, g2, g3, g4⟩
  rw [ht]
  simp only
  rw [hl, hv']
  simp [hpa, hna]

/-- C3, amended, at a concrete configuration: `otherConfig` round-trips through the
sample library into the empty configuration. -/
theorem LoadJSON_ToJSON_roundtrip_witness :
    Validate otherConfig = none ∧
      (ToJSON sampleLib otherConfig).2.2 = none ∧
      (LoadJSON sampleLib (ToJSON sampleLib otherConfig).2.1 emptyConfig).2 = none ∧
      (LoadJSON sampleLib (ToJSON sampleLib otherConfig).2.1 emptyConfig).1.ProxyAddr =
        otherConfig.ProxyAddr ∧
      (LoadJSON sampleLib (ToJSON sampleLib otherConfig).2.1 emptyConfig).1.ProxyIdleTimeout =
        otherConfig.ProxyIdleTimeout :=
  have h := LoadJSON_ToJSON_roundtrip sampleLib otherConfig emptyConfig (by decide)
    (by intro a ha; cases ha; exact ⟨"/ip4/10.0.0.7/tcp/4001", rfl, rfl⟩)
    (by intro a ha; cases ha; exact ⟨DefaultNodeAddr, rfl, rfl⟩)
    rfl rfl rfl rfl
    (by
      intro ps ns hp hn
      have hp' : (Except.ok "/ip4/10.0.0.7/tcp/4001" : Except String String) = .ok ps := hp
      have hn' : (Except.ok DefaultNodeAddr : Except String String) = .ok ns := hn
      cases hp'
      cases hn'
      exact ⟨_, rfl, rfl⟩)
  ⟨by decide, h.1, h.2.1, h.2.2.1, h.2.2.2.2.2.2.2.1⟩

/-- C4. `Default` followed by `Validate`. For the proxy configuration in any
prior state, `Validate` after `Default` returns no error exactly when both
built-in address literals parse to non-nil addresses (`Default` discards the
parser's error and stores whatever address came back). For the numpin
configuration in any prior state, `Validate` after `Default` returns no error,
the built-in default `MetricTTL` being positive. -/
theorem Default_then_Validate (lib : Lib Addr) (prior : Config Addr)
    (defaultMetricTTL : Duration) (nprior : Numpin.Config) :
    (Default lib prior).2 = none ∧
      (Validate (Default lib prior).1 = none ↔
        (lib.NewMultiaddr DefaultProxyAddr).1 ≠ none ∧
          (lib.NewMultiaddr DefaultNodeAddr).1 ≠ none) ∧
      (0 < defaultMetricTTL →
        (Numpin.Default defaultMetricTTL nprior).2 = none ∧
          Numpin.Validate (Numpin.Default defaultMetricTTL nprior).1 = none) := by
  refine ⟨rfl, ?_, ?_⟩
  · rw [validate_none_iff, default_eq]
    simp [Second]
  · intro h
    exact ⟨rfl, by simp [Numpin.Default, Numpin.Validate, h]⟩

/-- C4 under the sample library, whose parser accepts both literals, and with a
default `MetricTTL` of ten seconds: `Default` then `Validate` succeeds for both
configuration types, from a prior state that is itself invalid. -/
theorem Default_then_Validate_witness :
    Validate (Default sampleLib nilProxyNegativeIdle).1 = none ∧
      Numpin.Validate (Numpin.Default (10 * Second) { MetricTTL := 0 }).1 = none :=
  ⟨(Default_then_Validate sampleLib nilProxyNegativeIdle (10 * Second)
      { MetricTTL := 0 }).2.1.mpr ⟨by decide, by decide⟩,
    ((Default_then_Validate sampleLib nilProxyNegativeIdle (10 * Second)
      { MetricTTL := 0 }).2.2 (by decide)).2⟩

/-- C5. When the document decodes, both address strings parse without error
and all four duration strings parse, `LoadJSON` leaves the configuration whose
fields are the parsed values and returns exactly what `Validate` returns on
it. Consequently a load that returns no error, from any input, leaves a
configuration that passes `Validate`; and when one of the parsed durations is
negative the load fails with the validation error. -/
theorem LoadJSON_returns_Validate (lib : Lib Addr) (raw : Bytes) (prior : Config Addr)
    (j : jsonConfig) (pa na : Option Addr) (d1 d2 d3 d4 : Duration)
    (hu : lib.Unmarshal raw = .ok j)
    (hp : lib.NewMultiaddr j.ProxyListenMultiaddress = (pa, none))
    (hn : lib.NewMultiaddr j.NodeMultiaddress = (na, none))
    (h1 : lib.ParseDuration j.ProxyReadTimeout = .ok d1)
    (h2 : lib.ParseDuration j.ProxyReadHeaderTimeout = .ok d2)
    (h3 : lib.ParseDuration j.ProxyWriteTimeout = .ok d3)
    (h4 : lib.ParseDuration j.ProxyIdleTimeout = .ok d4) :
    LoadJSON lib raw prior =
        ({ Saver := prior.Saver, ProxyAddr := pa, NodeAddr := na, ProxyReadTimeout := d1,
           ProxyReadHeaderTimeout := d2, ProxyWriteTimeout := d3, ProxyIdleTimeout := d4 },
          Validate
            { Saver := prior.Saver, ProxyAddr := pa, NodeAddr := na, ProxyReadTimeout := d1,
              ProxyReadHeaderTimeout := d2, ProxyWriteTimeout := d3,
              ProxyIdleTimeout := d4 }) ∧
      (∀ (raw2 : Bytes) (prior2 : Config Addr), (LoadJSON lib raw2 prior2).2 = none →
        Validate (LoadJSON lib raw2 prior2).1 = none) ∧
      (d1 < 0 ∨ d2 < 0 ∨ d3 < 0 ∨ d4 < 0 →
        (LoadJSON lib raw prior).2 ≠ none ∧
          (LoadJSON lib raw prior).2 = Validate (LoadJSON lib raw prior).1) := by
  have hl := loadJSON_parsed lib raw prior j pa na d1 d2 d3 d4 hu hp hn h1 h2 h3 h4
  refine ⟨hl, fun raw2 prior2 h => loadJSON_success_valid lib raw2 prior2 h, ?_⟩
  intro hneg
  rw [hl]
  refine ⟨?_, rfl⟩
  intro hv
  obtain ⟨_, _, g1, g2, g3, g4⟩ := (validate_none_iff _).mp hv
  rcases hneg with h | h | h | h
  · exact absurd g1 (not_le.mpr h)
  · exact absurd g2 (not_le.mpr h)
  · exact absurd g3 (not_le.mpr h)
  · exact absurd g4 (not_le.mpr h)

/-- C5 at a concrete document: the idle timeout `"-5s"` parses to a negative
duration, and the load fails with the validation error for that field. -/
theorem LoadJSON_returns_Validate_witness :
    sampleLib.ParseDuration recNegative.ProxyIdleTimeout = .ok (-(5 * Second)) ∧
      (LoadJSON sampleLib (docOf recNegative) emptyConfig).2 =
        some (GoError.text "ipfsproxy.proxy_idle_timeout invalid") ∧
      (LoadJSON sampleLib (docOf recNegative) emptyConfig).2 =
        Validate (LoadJSON sampleLib (docOf recNegative) emptyConfig).1 :=
  have h := LoadJSON_returns_Validate sampleLib (docOf recNegative) emptyConfig recNegative
    (some { canonical := DefaultProxyAddr }) (some { canonical := DefaultNodeAddr })
    0 (5 * Second) 0 (-(5 * Second)) rfl rfl rfl rfl rfl rfl rfl
  ⟨rfl, by rw [h.1]; decide, (h.2.2 (by decide)).2⟩

/-- C6, as stated, fails for the node address: in the document whose two
address strings are both malformed, `node_multiaddress` is a string the parser
rejects, yet the error `LoadJSON` returns is the one for the proxy address and
does not name `node_multiaddress`. -/
theorem LoadJSON_node_error_not_named :
    sampleLib.Unmarshal (docOf recBadAddrs) = .ok recBadAddrs ∧
      (sampleLib.NewMultiaddr recBadAddrs.NodeMultiaddress).2 ≠ none ∧
      (LoadJSON sampleLib (docOf recBadAddrs) emptyConfig).2 =
        some (GoError.text
          "error parsing ipfs_proxy_listen_multiaddress: invalid multiaddr, must begin with /") ∧
      namesField
        (GoError.text
          "error parsing ipfs_proxy_listen_multiaddress: invalid multiaddr, must begin with /")
        "node_multiaddress" = false := by
  refine ⟨rfl, by decide, by decide, by decide⟩

/-- C6, amended. For a document that decodes: if the parser rejects the proxy
address string, `LoadJSON` returns the error built from
`error parsing ipfs_proxy_listen_multiaddress: ` and the parser's cause, which
names `proxy_listen_multiaddress`; if the parser accepts the proxy address
string and rejects the node address string, `LoadJSON` returns the error built
from `error parsing ipfs_node_multiaddress: ` and the parser's cause, which
names `node_multiaddress`. So whenever either string is rejected the load
fails, naming the first rejected address field, and never succeeds with a
default address in its place. The decoded string is handed to the parser as it
is: the empty string gets no special treatment. -/
theorem LoadJSON_rejects_first_malformed_address (lib : Lib Addr) (raw : Bytes)
    (prior : Config Addr) (j : jsonConfig) (hu : lib.Unmarshal raw = .ok j) :
    (∀ cause, (lib.NewMultiaddr j.ProxyListenMultiaddress).2 = some cause →
        (LoadJSON lib raw prior).2 =
            some (GoError.text ("error parsing ipfs_proxy_listen_multiaddress: " ++ cause)) ∧
          namesField (GoError.text ("error parsing ipfs_proxy_listen_multiaddress: " ++ cause))
            "proxy_listen_multiaddress" = true ∧
          carriesCause (GoError.text ("error parsing ipfs_proxy_listen_multiaddress: " ++ cause))
            cause = true) ∧
      (∀ cause, (lib.NewMultiaddr j.ProxyListenMultiaddress).2 = none →
        (lib.NewMultiaddr j.NodeMultiaddress).2 = some cause →
        (LoadJSON lib raw prior).2 =
            some (GoError.text ("error parsing ipfs_node_multiaddress: " ++ cause)) ∧
          namesField (GoError.text ("error parsing ipfs_node_multiaddress: " ++ cause))
            "node_multiaddress" = true ∧
          carriesCause (GoError.text ("error parsing ipfs_node_multiaddress: " ++ cause))
            cause = true) ∧
      ((lib.NewMultiaddr j.ProxyListenMultiaddress).2 ≠ none ∨
          (lib.NewMultiaddr j.NodeMultiaddress).2 ≠ none →
        (LoadJSON lib raw prior).2 ≠ none) ∧
      (∀ cause, j.ProxyListenMultiaddress = "" → (lib.NewMultiaddr "").2 = some cause →
        (LoadJSON lib raw prior).2 =
          some (GoError.text ("error parsing ipfs_proxy_listen_multiaddress: " ++ cause))) := by
  have hproxy : ∀ cause, (lib.NewMultiaddr j.ProxyListenMultiaddress).2 = some cause →
      (LoadJSON lib raw prior).2 =
        some (GoError.text ("error parsing ipfs_proxy_listen_multiaddress: " ++ cause)) := by
    intro cause hc
    rw [loadJSON_proxy_error lib raw prior j cause hu hc]
  have hnode : ∀ cause, (lib.NewMultiaddr j.ProxyListenMultiaddress).2 = none →
      (lib.NewMultiaddr j.NodeMultiaddress).2 = some cause →
      (LoadJSON lib raw prior).2 =
        some (GoError.text ("error parsing ipfs_node_multiaddress: " ++ cause)) := by
    intro cause hp hc
    rw [loadJSON_node_error lib raw prior j cause hu hp hc]
  refine ⟨fun cause hc => ⟨hproxy cause hc, proxy_error_names_field cause⟩,
    fun cause hp hc => ⟨hnode cause hp hc, node_error_names_field cause⟩, ?_, ?_⟩
  · intro h
    cases hp : (lib.NewMultiaddr j.ProxyListenMultiaddress).2 with
    | some cause => simp [hproxy cause hp]
    | none =>
      cases hn : (lib.NewMultiaddr j.NodeMultiaddress).2 with
      | some cause => simp [hnode cause hp hn]
      | none => simp [hp, hn] at h
  · intro cause he hc
    rw [← he] at hc
    exact hproxy cause hc

/-- C6, amended, at two concrete documents: with only the node address
malformed the error names `node_multiaddress`; with both addresses malformed
the load fails as well. -/
theorem LoadJSON_rejects_first_malformed_address_witness :
    (LoadJSON sampleLib (docOf recBadNode) otherConfig).2 =
        some (GoError.text
          ("error parsing ipfs_node_multiaddress: " ++ "invalid multiaddr, must begin with /")) ∧
      (LoadJSON sampleLib (docOf recBadAddrs) otherConfig).2 ≠ none :=
  ⟨((LoadJSON_rejects_first_malformed_address sampleLib (docOf recBadNode) otherConfig
      recBadNode rfl).2.1 "invalid multiaddr, must begin with /" rfl rfl).1,
    (LoadJSON_rejects_first_malformed_address sampleLib (docOf recBadAddrs) otherConfig
      recBadAddrs rfl).2.2.1 (Or.inl (by decide))⟩

/-- C7. When the input fails to decode into the schema record, `LoadJSON`
returns the decoding error and the configuration is exactly what it was before
the call: `Default` has not run. -/
theorem LoadJSON_decode_failure_untouched (lib : Lib Addr) (raw : Bytes) (cfg : Config Addr)
    (e : String) (hu : lib.Unmarshal raw = .error e) :
    (LoadJSON lib raw cfg).2 = some (GoError.text e) ∧ (LoadJSON lib raw cfg).1 = cfg := by
  rw [loadJSON_decode_error lib raw cfg e hu]
  exact ⟨rfl, rfl⟩

/-- C7 at a concrete input: the empty input, which is not a JSON document,
leaves `otherConfig`, which differs from the defaults, as it was. -/
theorem LoadJSON_decode_failure_untouched_witness :
    (LoadJSON sampleLib [] otherConfig).2 =
        some (GoError.text "unexpected end of JSON input") ∧
      (LoadJSON sampleLib [] otherConfig).1 = otherConfig ∧
      otherConfig ≠ (Default sampleLib otherConfig).1 :=
  ⟨(LoadJSON_decode_failure_untouched sampleLib [] otherConfig
      "unexpected end of JSON input" rfl).1,
    (LoadJSON_decode_failure_untouched sampleLib [] otherConfig
      "unexpected end of JSON input" rfl).2, by decide⟩

/-- C8. `ToJSON` never changes the configuration. When the `String()` call on
`ProxyAddr` panics, or the one on `NodeAddr` panics after the first returned,
`ToJSON` returns no bytes and the error whose message is the panic's value; a
`nil` address is such a panic (a nil dereference), so with `ProxyAddr` or
`NodeAddr` nil the result is an error and no bytes. -/
theorem ToJSON_fault_is_error (lib : Lib Addr) (cfg : Config Addr) :
    (ToJSON lib cfg).1 = cfg ∧
      (∀ r, multiaddrString lib cfg.ProxyAddr = .error r →
        (ToJSON lib cfg).2 = ([], some (GoError.text r))) ∧
      (∀ s r, multiaddrString lib cfg.ProxyAddr = .ok s →
        multiaddrString lib cfg.NodeAddr = .error r →
        (ToJSON lib cfg).2 = ([], some (GoError.text r))) ∧
      (cfg.ProxyAddr = none → (ToJSON lib cfg).2 = ([], some (GoError.text nilDereference))) ∧
      (cfg.ProxyAddr = none ∨ cfg.NodeAddr = none →
        (ToJSON lib cfg).2.1 = [] ∧ (ToJSON lib cfg).2.2 ≠ none) := by
  refine ⟨toJSON_frame lib cfg, toJSON_proxy_fault lib cfg, toJSON_node_fault lib cfg, ?_,
    toJSON_nil_fault lib cfg⟩
  intro h
  exact toJSON_proxy_fault lib cfg nilDereference (by simp [multiaddrString, h])

/-- C8 at concrete configurations: the empty configuration (both addresses
nil) and a configuration whose node address object cannot be printed. -/
theorem ToJSON_fault_is_error_witness :
    (ToJSON sampleLib emptyConfig).2 = ([], some (GoError.text nilDereference)) ∧
      (ToJSON sampleLib corruptNodeConfig).2 =
        ([], some (GoError.text "multiaddr failed to convert back to string. corrupted?")) ∧
      (ToJSON sampleLib corruptNodeConfig).1 = corruptNodeConfig :=
  ⟨(ToJSON_fault_is_error sampleLib emptyConfig).2.2.2.1 rfl,
    (ToJSON_fault_is_error sampleLib corruptNodeConfig).2.2.1 DefaultProxyAddr
      "multiaddr failed to convert back to string. corrupted?" rfl rfl,
    (ToJSON_fault_is_error sampleLib corruptNodeConfig).1⟩

/-- C9. From any prior state `Default` returns no error and leaves `ProxyAddr`
the address parsed from `/ip4/127.0.0.1/tcp/9095`, `NodeAddr` the address
parsed from `/ip4/127.0.0.1/tcp/5001` (two different literals),
`ProxyReadTimeout` and `ProxyWriteTimeout` zero, `ProxyReadHeaderTimeout` five
seconds and `ProxyIdleTimeout` sixty seconds, both positive. The six fields do
not depend on the prior state, and `Default` is idempotent. -/
theorem Default_sets_builtin_values (lib : Lib Addr) (prior other : Config Addr) :
    (Default lib prior).2 = none ∧
      (Default lib prior).1.ProxyAddr = (lib.NewMultiaddr "/ip4/127.0.0.1/tcp/9095").1 ∧
      (Default lib prior).1.NodeAddr = (lib.NewMultiaddr "/ip4/127.0.0.1/tcp/5001").1 ∧
      (Default lib prior).1.ProxyReadTimeout = 0 ∧
      (Default lib prior).1.ProxyWriteTimeout = 0 ∧
      (Default lib prior).1.ProxyReadHeaderTimeout = 5 * Second ∧
      (Default lib prior).1.ProxyIdleTimeout = 60 * Second ∧
      0 < (Default lib prior).1.ProxyReadHeaderTimeout ∧
      0 < (Default lib prior).1.ProxyIdleTimeout ∧
      DefaultProxyAddr ≠ DefaultNodeAddr ∧
      (Default lib prior).1 = { (Default lib other).1 with Saver := prior.Saver } ∧
      Default lib (Default lib prior).1 = Default lib prior := by
  refine ⟨rfl, rfl, rfl, rfl, rfl, rfl, rfl, ?_, ?_, by decide, rfl, rfl⟩
  · show (0 : Duration) < 5 * Second
    decide
  · show (0 : Duration) < 60 * Second
    decide

/-- C10. Let the document decode and both addresses parse without error, and
let the four duration strings, in the order `proxy_read_timeout`,
`proxy_read_header_timeout`, `proxy_write_timeout`, `proxy_idle_timeout`,
split into strings that parse, then one that fails to parse, then the rest
(of which nothing is assumed). Then `LoadJSON` returns the duration-parse error
of the `ipfsproxy` component that names the failing field and carries the
parser's cause, and all four timeouts, before and after the failing one, hold
their `Default` values; the two parsed addresses have been stored. -/
theorem LoadJSON_duration_failure (lib : Lib Addr) (raw : Bytes) (prior : Config Addr)
    (j : jsonConfig) (pa na : Option Addr) (pre : List DurationOpt) (opt : DurationOpt)
    (post : List DurationOpt) (cause : String)
    (hu : lib.Unmarshal raw = .ok j)
    (hp : lib.NewMultiaddr j.ProxyListenMultiaddress = (pa, none))
    (hn : lib.NewMultiaddr j.NodeMultiaddress = (na, none))
    (hsplit : durationOpts j = pre ++ opt :: post)
    (hpre : ∀ o ∈ pre, ∃ d, lib.ParseDuration o.Duration = .ok d)
    (hopt : lib.ParseDuration opt.Duration = .error cause) :
    (LoadJSON lib raw prior).2 = some (GoError.durationParse "ipfsproxy" opt.Name cause) ∧
      namesField (GoError.durationParse "ipfsproxy" opt.Name cause) opt.Name = true ∧
      (LoadJSON lib raw prior).1.ProxyReadTimeout = DefaultProxyReadTimeout ∧
      (LoadJSON lib raw prior).1.ProxyReadHeaderTimeout = DefaultProxyReadHeaderTimeout ∧
      (LoadJSON lib raw prior).1.ProxyWriteTimeout = DefaultProxyWriteTimeout ∧
      (LoadJSON lib raw prior).1.ProxyIdleTimeout = DefaultProxyIdleTimeout ∧
      (∀ dst : DurationDst,
        dst.load (LoadJSON lib raw prior).1 = dst.load (Default lib prior).1) ∧
      (LoadJSON lib raw prior).1 =
        { (Default lib prior).1 with ProxyAddr := pa, NodeAddr := na } := by
  have hb := parseBatch_first_failure lib "ipfsproxy" pre opt post cause hpre hopt
  have hl : LoadJSON lib raw prior =
      ({ (Default lib prior).1 with ProxyAddr := pa, NodeAddr := na },
        some (GoError.durationParse "ipfsproxy" opt.Name cause)) := by
    rw [loadJSON_durations lib raw prior j pa na hu hp hn]
    simp [ParseDurations, hsplit, hb]
  rw [hl]
  refine ⟨rfl, by simp [namesField], rfl, rfl, rfl, rfl, ?_, rfl⟩
  intro dst
  cases dst <;> rfl

/-- C10 at a concrete document: the read timeout `"7s"` and the read-header
timeout `"30s"` parse, the write timeout `"soon"` does not; the error names
`proxy_write_timeout` and the four timeouts hold the defaults, not `7s` and
`30s`. -/
theorem LoadJSON_duration_failure_witness :
    (LoadJSON sampleLib (docOf recBadDuration) otherConfig).2 =
        some (GoError.durationParse "ipfsproxy" "proxy_write_timeout"
          "time: invalid duration \"soon\"") ∧
      (LoadJSON sampleLib (docOf recBadDuration) otherConfig).1.ProxyReadTimeout = 0 ∧
      (LoadJSON sampleLib (docOf recBadDuration) otherConfig).1.ProxyReadHeaderTimeout =
        5 * Second ∧
      (LoadJSON sampleLib (docOf recBadDuration) otherConfig).1.ProxyIdleTimeout =
        60 * Second :=
  have h := LoadJSON_duration_failure sampleLib (docOf recBadDuration) otherConfig
    recBadDuration (some { canonical := "/ip4/10.0.0.7/tcp/4001" })
    (some { canonical := DefaultNodeAddr })
    [{ Duration := "7s", Dst := .ProxyReadTimeout, Name := "proxy_read_timeout" },
      { Duration := "30s", Dst := .ProxyReadHeaderTimeout, Name := "proxy_read_header_timeout" }]
    { Duration := "soon", Dst := .ProxyWriteTimeout, Name := "proxy_write_timeout" }
    [{ Duration := "0s", Dst := .ProxyIdleTimeout, Name := "proxy_idle_timeout" }]
    "time: invalid duration \"soon\"" rfl rfl rfl rfl
    (by
      intro o ho
      simp only [List.mem_cons, List.mem_singleton, List.not_mem_nil, or_false] at ho
      rcases ho with rfl | rfl
      · exact ⟨7 * Second, rfl⟩
      · exact ⟨30 * Second, rfl⟩)
    rfl
  ⟨h.1, h.2.2.1, h.2.2.2.1, h.2.2.2.2.2.1⟩

end Claims
end Ipfsproxy

/-! # The informer configuration: validation and loading -/

namespace Numpin

open Ipfsproxy (Duration GoError Second Bytes)

theorem validate_ne_none_iff (cfg : Config) : Validate cfg ≠ none ↔ cfg.MetricTTL ≤ 0 := by
  unfold Validate
  by_cases h : cfg.MetricTTL ≤ 0 <;> simp [h]

theorem loadJSON_metric_ttl_parsed (lib : Lib) (ttl : Duration) (raw : Bytes) (cfg : Config)
    (j : jsonConfig) (d : Duration) (hu : lib.Unmarshal raw = .ok j)
    (hd : lib.ParseDuration j.MetricTTL = .ok d) :
    LoadJSON lib ttl raw cfg = ({ MetricTTL := d }, Validate { MetricTTL := d }) := by
  simp [LoadJSON, hu, hd, Default]

/-- C11. `Validate` of the numpin configuration returns an error whenever
`MetricTTL` is zero or negative, and no error whenever it is positive. In
particular a defaulted configuration whose `MetricTTL` is then set to zero
fails validation. -/
theorem Validate_strictly_positive (cfg : Config) :
    (cfg.MetricTTL ≤ 0 → Validate cfg ≠ none) ∧
      (0 < cfg.MetricTTL → Validate cfg = none) ∧
      (∀ (ttl : Duration) (prior : Config),
        Validate { (Default ttl prior).1 with MetricTTL := 0 } ≠ none) := by
  refine ⟨fun h => (validate_ne_none_iff cfg).mpr h, ?_, ?_⟩
  · intro h
    by_contra hv
    exact absurd ((validate_ne_none_iff cfg).mp hv) (not_le.mpr h)
  · intro ttl prior
    exact (validate_ne_none_iff _).mpr (le_refl (0 : Duration))

/-- C11 at concrete values: zero and minus five seconds are rejected, one
second is accepted. -/
theorem Validate_strictly_positive_witness :
    Validate { MetricTTL := 0 } ≠ none ∧ Validate { MetricTTL := -(5 * Second) } ≠ none ∧
      Validate { MetricTTL := Second } = none :=
  ⟨(Validate_strictly_positive { MetricTTL := 0 }).1 (by decide),
    (Validate_strictly_positive { MetricTTL := -(5 * Second) }).1 (by decide),
    (Validate_strictly_positive { MetricTTL := Second }).2.1 (by decide)⟩

/-- C12. For a document that decodes: when its `metric_ttl` string parses to a
positive duration, `LoadJSON` returns no error and leaves `MetricTTL` at the
parsed value, and a following `ToJSON` succeeds: it returns no error, together
with the encoding of the record of that value, and leaves the configuration
alone; when the string fails to parse, or parses to zero or to a negative
duration, `LoadJSON` returns an error. -/
theorem LoadJSON_metric_ttl (lib : Lib) (ttl : Duration) (raw : Bytes) (prior : Config)
    (j : jsonConfig) (hu : lib.Unmarshal raw = .ok j) :
    (∀ d, lib.ParseDuration j.MetricTTL = .ok d → 0 < d →
        (LoadJSON lib ttl raw prior).2 = none ∧
          (LoadJSON lib ttl raw prior).1.MetricTTL = d ∧
          (ToJSON lib (LoadJSON lib ttl raw prior).1).2.2 = none ∧
          (ToJSON lib (LoadJSON lib ttl raw prior).1).2.1 =
            lib.encode { MetricTTL := lib.durationString d } ∧
          (ToJSON lib (LoadJSON lib ttl raw prior).1).1 = (LoadJSON lib ttl raw prior).1) ∧
      (∀ cause, lib.ParseDuration j.MetricTTL = .error cause →
        (LoadJSON lib ttl raw prior).2 ≠ none) ∧
      (∀ d, lib.ParseDuration j.MetricTTL = .ok d → d ≤ 0 →
        (LoadJSON lib ttl raw prior).2 ≠ none) := by
  refine ⟨?_, ?_, ?_⟩
  · intro d hd hpos
    have hv : Validate { MetricTTL := d } = none := by
      by_contra hv
      exact absurd ((validate_ne_none_iff _).mp hv) (not_le.mpr hpos)
    rw [loadJSON_metric_ttl_parsed lib ttl raw prior j d hu hd, hv]
    exact ⟨rfl, rfl, rfl, rfl, rfl⟩
  · intro cause hc
    simp [LoadJSON, hu, hc]
  · intro d hd hle
    rw [loadJSON_metric_ttl_parsed lib ttl raw prior j d hu hd]
    exact (validate_ne_none_iff _).mpr hle

/-- C12 on the documents of the test: `cfgJSON`, whose `metric_ttl` is `1s`,
loads into an empty configuration and is written back without error; the
document with `metric_ttl` set to `-10` then fails to load into the same
configuration, and so do a zero and a negative `metric_ttl`. -/
theorem LoadJSON_metric_ttl_witness :
    (LoadJSON sampleLib (10 * Second) cfgJSON emptyConfig).2 = none ∧
      (LoadJSON sampleLib (10 * Second) cfgJSON emptyConfig).1.MetricTTL = Second ∧
      (ToJSON sampleLib (LoadJSON sampleLib (10 * Second) cfgJSON emptyConfig).1).2.2 = none ∧
      (LoadJSON sampleLib (10 * Second) docMissingUnit
        (LoadJSON sampleLib (10 * Second) cfgJSON emptyConfig).1).2 ≠ none ∧
      (LoadJSON sampleLib (10 * Second) docZero emptyConfig).2 ≠ none ∧
      (LoadJSON sampleLib (10 * Second) docNegative emptyConfig).2 ≠ none :=
  have h := (LoadJSON_metric_ttl sampleLib (10 * Second) cfgJSON emptyConfig
    { MetricTTL := "1s" } rfl).1 Second rfl (by decide)
  ⟨h.1, h.2.1, h.2.2.1,
    (LoadJSON_metric_ttl sampleLib (10 * Second) docMissingUnit
      (LoadJSON sampleLib (10 * Second) cfgJSON emptyConfig).1 { MetricTTL := "-10" } rfl).2.1
      "time: missing unit in duration \"-10\"" rfl,
    (LoadJSON_metric_ttl sampleLib (10 * Second) docZero emptyConfig
      { MetricTTL := "0s" } rfl).2.2 0 rfl (by decide),
    (LoadJSON_metric_ttl sampleLib (10 * Second) docNegative emptyConfig
      { MetricTTL := "-5s" } rfl).2.2 (-(5 * Second)) rfl (by decide)⟩

end Numpin

/-! # Behaviour of the proxy configuration beyond the contract -/

namespace Ipfsproxy

section BehaviourLemmas

variable {Addr : Type}

theorem validate_idle (cfg : Config Addr) (h : cfg.ProxyIdleTimeout < 0) :
    Validate cfg = some (GoError.text "ipfsproxy.proxy_idle_timeout invalid") := by
  simp [Validate, h]

theorem validate_write (cfg : Config Addr) (h6 : ¬ cfg.ProxyIdleTimeout < 0)
    (h : cfg.ProxyWriteTimeout < 0) :
    Validate cfg = some (GoError.text "ipfsproxy.proxy_write_timeout is invalid") := by
  simp [Validate, h, h6]

theorem validate_read_header (cfg : Config Addr) (h6 : ¬ cfg.ProxyIdleTimeout < 0)
    (h5 : ¬ cfg.ProxyWriteTimeout < 0) (h : cfg.ProxyReadHeaderTimeout < 0) :
    Validate cfg = some (GoError.text "ipfsproxy.proxy_read_header_timeout is invalid") := by
  simp [Validate, h, h5, h6]

theorem validate_read (cfg : Config Addr) (h6 : ¬ cfg.ProxyIdleTimeout < 0)
    (h5 : ¬ cfg.ProxyWriteTimeout < 0) (h4 : ¬ cfg.ProxyReadHeaderTimeout < 0)
    (h : cfg.ProxyReadTimeout < 0) :
    Validate cfg = some (GoError.text "ipfsproxy.proxy_read_timeout is invalid") := by
  simp [Validate, h, h4, h5, h6]

theorem validate_node (cfg : Config Addr) (h6 : ¬ cfg.ProxyIdleTimeout < 0)
    (h5 : ¬ cfg.ProxyWriteTimeout < 0) (h4 : ¬ cfg.ProxyReadHeaderTimeout < 0)
    (h3 : ¬ cfg.ProxyReadTimeout < 0) (h : cfg.NodeAddr = none) :
    Validate cfg = some (GoError.text "ipfsproxy.node_multiaddress not set") := by
  simp [Validate, h, h3, h4, h5, h6]

theorem storeBatch_saver (parsed : List (DurationDst × Duration)) (c : Config Addr) (s : Saver) :
    storeBatch parsed { c with Saver := s } = { storeBatch parsed c with Saver := s } := by
  induction parsed generalizing c with
  | nil => rfl
  | cons p rest ih =>
    have hstep : p.1.store p.2 { c with Saver := s } = { p.1.store p.2 c with Saver := s } := by
      cases h : p.1 <;> rfl
    simp only [storeBatch, List.foldl_cons] at ih ⊢
    rw [hstep]
    exact ih _

theorem validate_saver (c : Config Addr) (s : Saver) :
    Validate { c with Saver := s } = Validate c := rfl

theorem loadJSON_saver_swap (lib : Lib Addr) (raw : Bytes) (c1 c2 : Config Addr)
    (j : jsonConfig) (hu : lib.Unmarshal raw = .ok j) :
    LoadJSON lib raw c2 =
      ({ (LoadJSON lib raw c1).1 with Saver := c2.Saver }, (LoadJSON lib raw c1).2) := by
  have hdef : (Default lib c2).1 = { (Default lib c1).1 with Saver := c2.Saver } := rfl
  rcases hpp : lib.NewMultiaddr j.ProxyListenMultiaddress with ⟨pa, _ | e⟩
  · rcases hnn : lib.NewMultiaddr j.NodeMultiaddress with ⟨na, _ | f⟩
    · rw [loadJSON_durations lib raw c1 j pa na hu hpp hnn,
        loadJSON_durations lib raw c2 j pa na hu hpp hnn]
      unfold ParseDurations
      cases hb : parseBatch lib "ipfsproxy" (durationOpts j) with
      | error e => simp [hdef]
      | ok parsed =>
        have hs := storeBatch_saver parsed
          { (Default lib c1).1 with ProxyAddr := pa, NodeAddr := na } c2.Saver
        have hc : ({ (Default lib c2).1 with ProxyAddr := pa, NodeAddr := na } : Config Addr) =
            { ({ (Default lib c1).1 with ProxyAddr := pa, NodeAddr := na } : Config Addr) with
              Saver := c2.Saver } := rfl
        simp only [hc, hs, validate_saver]
    · have hn' : (lib.NewMultiaddr j.NodeMultiaddress).2 = some f := by rw [hnn]
      have hp' : (lib.NewMultiaddr j.ProxyListenMultiaddress).2 = none := by rw [hpp]
      rw [loadJSON_node_error lib raw c1 j f hu hp' hn',
        loadJSON_node_error lib raw c2 j f hu hp' hn', hdef]
  · have hp' : (lib.NewMultiaddr j.ProxyListenMultiaddress).2 = some e := by rw [hpp]
    rw [loadJSON_proxy_error lib raw c1 j e hu hp', loadJSON_proxy_error lib raw c2 j e hu hp',
      hdef]

theorem loadJSON_address_failure (lib : Lib Addr) (raw : Bytes) (prior : Config Addr)
    (j : jsonConfig) (hu : lib.Unmarshal raw = .ok j)
    (hfail : (lib.NewMultiaddr j.ProxyListenMultiaddress).2 ≠ none ∨
      (lib.NewMultiaddr j.NodeMultiaddress).2 ≠ none) :
    ∃ e, LoadJSON lib raw prior = ((Default lib prior).1, some e) := by
  cases hp : (lib.NewMultiaddr j.ProxyListenMultiaddress).2 with
  | some cause => exact ⟨_, loadJSON_proxy_error lib raw prior j cause hu hp⟩
  | none =>
    cases hn : (lib.NewMultiaddr j.NodeMultiaddress).2 with
    | some cause => exact ⟨_, loadJSON_node_error lib raw prior j cause hu hp hn⟩
    | none => simp [hp, hn] at hfail

end BehaviourLemmas

end Ipfsproxy

namespace Ipfsproxy

section BehaviourClaims

variable {Addr : Type}

theorem validate_proxy (cfg : Config Addr) (h6 : ¬ cfg.ProxyIdleTimeout < 0)
    (h5 : ¬ cfg.ProxyWriteTimeout < 0) (h4 : ¬ cfg.ProxyReadHeaderTimeout < 0)
    (h3 : ¬ cfg.ProxyReadTimeout < 0) (h2 : cfg.NodeAddr ≠ none) (h : cfg.ProxyAddr = none) :
    Validate cfg = some (GoError.text "ipfsproxy.proxy_listen_multiaddress not set") := by
  obtain ⟨na, hna⟩ := Option.ne_none_iff_exists'.mp h2
  simp [Validate, h, hna, h3, h4, h5, h6]

theorem validate_ne_firstViolation_of_two (cfg : Config Addr) (h : 2 ≤ violations cfg) :
    Validate cfg ≠ firstViolation cfg := by
  rw [validate_eq_lastViolation]
  unfold violations at h
  unfold lastViolation firstViolation
  unfold checks at *
  by_cases h6 : cfg.ProxyIdleTimeout < 0 <;>
  by_cases h5 : cfg.ProxyWriteTimeout < 0 <;>
  by_cases h4 : cfg.ProxyReadHeaderTimeout < 0 <;>
  by_cases h3 : cfg.ProxyReadTimeout < 0 <;>
  cases h2 : cfg.NodeAddr <;> cases h1 : cfg.ProxyAddr <;>
    simp [h1, h2, h3, h4, h5, h6, List.find?, List.filter] at h ⊢

/-- C13. `Validate` returns the error of the last violated check in source
order: a negative `ProxyIdleTimeout` always yields its message; otherwise a
negative `ProxyWriteTimeout` yields its message; and so on back through
`ProxyReadHeaderTimeout`, `ProxyReadTimeout`, `NodeAddr` and `ProxyAddr`, each
violated check being reported only if no later check is violated. So with two
or more violations the error is not that of the first violated check, and with
`ProxyAddr` nil and `ProxyIdleTimeout` negative the message is
`ipfsproxy.proxy_idle_timeout invalid`. -/
theorem Validate_last_check_wins (cfg : Config Addr) :
    Validate cfg = lastViolation cfg ∧
      (cfg.ProxyIdleTimeout < 0 →
        Validate cfg = some (GoError.text "ipfsproxy.proxy_idle_timeout invalid")) ∧
      (0 ≤ cfg.ProxyIdleTimeout → cfg.ProxyWriteTimeout < 0 →
        Validate cfg = some (GoError.text "ipfsproxy.proxy_write_timeout is invalid")) ∧
      (0 ≤ cfg.ProxyIdleTimeout → 0 ≤ cfg.ProxyWriteTimeout →
        cfg.ProxyReadHeaderTimeout < 0 →
        Validate cfg = some (GoError.text "ipfsproxy.proxy_read_header_timeout is invalid")) ∧
      (0 ≤ cfg.ProxyIdleTimeout → 0 ≤ cfg.ProxyWriteTimeout →
        0 ≤ cfg.ProxyReadHeaderTimeout → cfg.ProxyReadTimeout < 0 →
        Validate cfg = some (GoError.text "ipfsproxy.proxy_read_timeout is invalid")) ∧
      (0 ≤ cfg.ProxyIdleTimeout → 0 ≤ cfg.ProxyWriteTimeout →
        0 ≤ cfg.ProxyReadHeaderTimeout → 0 ≤ cfg.ProxyReadTimeout → cfg.NodeAddr = none →
        Validate cfg = some (GoError.text "ipfsproxy.node_multiaddress not set")) ∧
      (0 ≤ cfg.ProxyIdleTimeout → 0 ≤ cfg.ProxyWriteTimeout →
        0 ≤ cfg.ProxyReadHeaderTimeout → 0 ≤ cfg.ProxyReadTimeout → cfg.NodeAddr ≠ none →
        cfg.ProxyAddr = none →
        Validate cfg = some (GoError.text "ipfsproxy.proxy_listen_multiaddress not set")) ∧
      (2 ≤ violations cfg → Validate cfg ≠ firstViolation cfg) ∧
      (cfg.ProxyAddr = none → cfg.ProxyIdleTimeout < 0 →
        Validate cfg = some (GoError.text "ipfsproxy.proxy_idle_timeout invalid")) :=
  ⟨validate_eq_lastViolation cfg, validate_idle cfg,
    fun h6 h => validate_write cfg (not_lt.mpr h6) h,
    fun h6 h5 h => validate_read_header cfg (not_lt.mpr h6) (not_lt.mpr h5) h,
    fun h6 h5 h4 h => validate_read cfg (not_lt.mpr h6) (not_lt.mpr h5) (not_lt.mpr h4) h,
    fun h6 h5 h4 h3 h =>
      validate_node cfg (not_lt.mpr h6) (not_lt.mpr h5) (not_lt.mpr h4) (not_lt.mpr h3) h,
    fun h6 h5 h4 h3 h2 h =>
      validate_proxy cfg (not_lt.mpr h6) (not_lt.mpr h5) (not_lt.mpr h4) (not_lt.mpr h3) h2 h,
    validate_ne_firstViolation_of_two cfg, fun _ h => validate_idle cfg h⟩

/-- C13 at the configuration with `ProxyAddr` nil and `ProxyIdleTimeout`
negative, which violates two checks: the message is the one of the idle
timeout and differs from that of the first violated check. -/
theorem Validate_last_check_wins_witness :
    violations nilProxyNegativeIdle = 2 ∧
      Validate nilProxyNegativeIdle =
        some (GoError.text "ipfsproxy.proxy_idle_timeout invalid") ∧
      Validate nilProxyNegativeIdle ≠ firstViolation nilProxyNegativeIdle :=
  ⟨by decide,
    (Validate_last_check_wins nilProxyNegativeIdle).2.2.2.2.2.2.2.2 rfl (by decide),
    (Validate_last_check_wins nilProxyNegativeIdle).2.2.2.2.2.2.2.1 (by decide)⟩

/-- C14. When the document decodes and `LoadJSON` fails on an address string,
be it the proxy address or, the proxy address having parsed, the node address,
it returns an error and the configuration is exactly the one `Default` leaves:
both addresses and all four timeouts hold their default values, the proxy
address that parsed has not been stored, and the prior values are gone. The
duration strings are not examined: the outcome is the same whatever the
duration parser would do with them. -/
theorem LoadJSON_address_failure_leaves_defaults (lib : Lib Addr) (raw : Bytes)
    (prior : Config Addr) (j : jsonConfig) (hu : lib.Unmarshal raw = .ok j)
    (hfail : (lib.NewMultiaddr j.ProxyListenMultiaddress).2 ≠ none ∨
      (lib.NewMultiaddr j.NodeMultiaddress).2 ≠ none) :
    (LoadJSON lib raw prior).2 ≠ none ∧
      (LoadJSON lib raw prior).1 = (Default lib prior).1 ∧
      (LoadJSON lib raw prior).1.ProxyAddr = (lib.NewMultiaddr DefaultProxyAddr).1 ∧
      (LoadJSON lib raw prior).1.NodeAddr = (lib.NewMultiaddr DefaultNodeAddr).1 ∧
      (LoadJSON lib raw prior).1.ProxyReadTimeout = DefaultProxyReadTimeout ∧
      (LoadJSON lib raw prior).1.ProxyReadHeaderTimeout = DefaultProxyReadHeaderTimeout ∧
      (LoadJSON lib raw prior).1.ProxyWriteTimeout = DefaultProxyWriteTimeout ∧
      (LoadJSON lib raw prior).1.ProxyIdleTimeout = DefaultProxyIdleTimeout ∧
      (∀ parse : String → Except String Duration,
        LoadJSON { lib with ParseDuration := parse } raw prior = LoadJSON lib raw prior) := by
  obtain ⟨e, he⟩ := loadJSON_address_failure lib raw prior j hu hfail
  refine ⟨by simp [he], by rw [he], by rw [he]; rfl, by rw [he]; rfl, by rw [he]; rfl,
    by rw [he]; rfl, by rw [he]; rfl, by rw [he]; rfl, ?_⟩
  intro parse
  cases hp : (lib.NewMultiaddr j.ProxyListenMultiaddress).2 with
  | some cause =>
    rw [loadJSON_proxy_error lib raw prior j cause hu hp,
      loadJSON_proxy_error { lib with ParseDuration := parse } raw prior j cause hu hp]
    rfl
  | none =>
    cases hn : (lib.NewMultiaddr j.NodeMultiaddress).2 with
    | some cause =>
      rw [loadJSON_node_error lib raw prior j cause hu hp hn,
        loadJSON_node_error { lib with ParseDuration := parse } raw prior j cause hu hp hn]
      rfl
    | none => simp [hp, hn] at hfail

/-- C14 at a concrete document whose proxy address parses to an address other
than the default and whose node address is malformed, loaded into a
configuration that differs from the defaults: the load fails, the parsed proxy
address is not stored, and every field holds its default. -/
theorem LoadJSON_address_failure_leaves_defaults_witness :
    (sampleLibExt.NewMultiaddr recOtherBadNode.ProxyListenMultiaddress) =
        (some { canonical := "/ip4/10.0.0.7/tcp/4001" }, none) ∧
      (LoadJSON sampleLibExt (docOf recOtherBadNode) otherConfig).2 ≠ none ∧
      (LoadJSON sampleLibExt (docOf recOtherBadNode) otherConfig).1 =
        { defaultConfig with Saver := otherConfig.Saver } ∧
      LoadJSON { sampleLibExt with ParseDuration := rejectAllDurations }
          (docOf recOtherBadNode) otherConfig =
        LoadJSON sampleLibExt (docOf recOtherBadNode) otherConfig :=
  have h := LoadJSON_address_failure_leaves_defaults sampleLibExt (docOf recOtherBadNode)
    otherConfig recOtherBadNode rfl (Or.inr (by decide))
  ⟨rfl, h.1, h.2.1.trans (by decide), h.2.2.2.2.2.2.2.2 rejectAllDurations⟩

/-- C15. For an input that decodes, the outcome of `LoadJSON` does not depend
on the prior state of the configuration: from any two initial configurations
the two runs return the same error or success and leave the same two addresses
and the same four timeouts. -/
theorem LoadJSON_independent_of_prior_state (lib : Lib Addr) (raw : Bytes)
    (c1 c2 : Config Addr) (j : jsonConfig) (hu : lib.Unmarshal raw = .ok j) :
    (LoadJSON lib raw c1).2 = (LoadJSON lib raw c2).2 ∧
      (LoadJSON lib raw c1).1.ProxyAddr = (LoadJSON lib raw c2).1.ProxyAddr ∧
      (LoadJSON lib raw c1).1.NodeAddr = (LoadJSON lib raw c2).1.NodeAddr ∧
      (LoadJSON lib raw c1).1.ProxyReadTimeout = (LoadJSON lib raw c2).1.ProxyReadTimeout ∧
      (LoadJSON lib raw c1).1.ProxyReadHeaderTimeout =
        (LoadJSON lib raw c2).1.ProxyReadHeaderTimeout ∧
      (LoadJSON lib raw c1).1.ProxyWriteTimeout = (LoadJSON lib raw c2).1.ProxyWriteTimeout ∧
      (LoadJSON lib raw c1).1.ProxyIdleTimeout = (LoadJSON lib raw c2).1.ProxyIdleTimeout := by
  rw [loadJSON_saver_swap lib raw c1 c2 j hu]
  exact ⟨rfl, rfl, rfl, rfl, rfl, rfl, rfl⟩

/-- C15 at concrete inputs: a valid document, a document with a malformed
duration and a document with malformed addresses each give the same result from
the empty configuration and from `otherConfig`. -/
theorem LoadJSON_independent_of_prior_state_witness :
    (LoadJSON sampleLib (docOf recOther) emptyConfig).2 =
        (LoadJSON sampleLib (docOf recOther) otherConfig).2 ∧
      (LoadJSON sampleLib (docOf recBadDuration) emptyConfig).2 =
        (LoadJSON sampleLib (docOf recBadDuration) otherConfig).2 ∧
      (LoadJSON sampleLib (docOf recBadAddrs) emptyConfig).1.ProxyAddr =
        (LoadJSON sampleLib (docOf recBadAddrs) otherConfig).1.ProxyAddr :=
  ⟨(LoadJSON_independent_of_prior_state sampleLib (docOf recOther) emptyConfig otherConfig
      recOther rfl).1,
    (LoadJSON_independent_of_prior_state sampleLib (docOf recBadDuration) emptyConfig
      otherConfig recBadDuration rfl).1,
    (LoadJSON_independent_of_prior_state sampleLib (docOf recBadAddrs) emptyConfig otherConfig
      recBadAddrs rfl).2.1⟩

end BehaviourClaims
end Ipfsproxy
